import Mathlib

/-!
Shallow embedding of `wasmdump.py`, a forensic disassembler for WebAssembly
module binaries, together with theorems settling the specification claims.

Modelling conventions:
* Python `bytes` become `List Nat`; every byte of a real input is `< 256`,
  but nothing in the embedding needs that bound.
* The mutable `ReadData` cursor becomes explicit state passing: each
  primitive returns the produced chunk (the Span carrier: a fresh
  `ReadData` holding the consumed bytes and their absolute offset)
  together with the advanced cursor.
* Python exceptions become `Except Err`.  `IOError('not enough data')`
  and `IndexError` raised by a cursor read past the end of the buffer
  both map to `Err.truncated`; `IndexError` on a dispatch-table lookup
  maps to `Err.indexError`; each `NotImplementedError` site gets its own
  constructor; `AttributeError` / `ValueError` get constructors.
* `dprint` only writes to stdout, so it is elided — except that the
  evaluation of its *arguments* can raise (e.g. `memidx.code`), which is
  kept.
* The `path` field of `ReadData` only appears in error messages and is
  dropped.
-/

namespace WD

/-- Errors of the dump run.  Python exception → constructor mapping is
described in the file header. -/
inductive Err
  | truncated
  | indexError
  | attributeError
  | valueError
  | unknownInstruction
  | unknownLiteralCode
  | unhandledOperand (mnem : String) (opName : String)
  | unknownValtype
  | unknownReftype
  | unknownElemkind
  | unknownElement
  | unknownDataMode
  deriving DecidableEq, Repr

/-- A Python value as stored in the `DISASM` operand lists: a string such
as `'mao'`, or the integer literal `0`.  The `t2` constructor represents
the *tuple* `('vb16', 'vlt')` that line 843 of the source compares
operands against; Python equality between a string and a tuple is always
`False`, which the derived structural equality reproduces. -/
inductive PyVal
  | s (v : String)
  | i (v : Nat)
  | t2 (a b : String)
  deriving DecidableEq, Repr

/-- One slot of the opcode dispatch table: an empty (reserved) slot, a
live entry `[operand_kinds, asm]`, or a nested 256-entry plane (only at
indices 0xFC and 0xFD of the top-level table). -/
inductive Slot
  | empty
  | entry (ops : List PyVal) (asm : List String)
  | sub (t : List Slot)

/-- `class ReadData`: a positioned view over a byte buffer.  `fpos` is the
absolute file offset of `data[0]`, `rpos` the read position. -/
structure ReadData where
  data : List Nat
  fpos : Nat
  rpos : Nat
  deriving DecidableEq, Repr

/-- `class Integer(ValueData)`: a decoded integer bundled with the chunk
(`ReadData`) it was decoded from. -/
structure Integer where
  value : Nat
  data : ReadData
  deriving DecidableEq, Repr

/-- `class String(ValueData)`: a decoded name bundled with its chunk.  The
decoded text is kept as the raw byte list; `codecs.decode` additionally
rejects invalid UTF-8, which only removes successful runs and is not
needed by any claim. -/
structure PyString where
  value : List Nat
  data : ReadData
  deriving DecidableEq, Repr

/-- `decode_leb128u`: `sum((v & 0x7f) << (n * 7) for n, v in enumerate(data))`. -/
def decode_leb128u (data : List Nat) : Nat :=
  (data.enum.map (fun p => (p.2 &&& 0x7f) <<< (p.1 * 7))).sum

/-- `decode_leb128s`: subtract `1 << (len(data) * 7)` when bit 6 of the
last byte (`data[-1]`, total here via `getLastD`; all call sites pass a
nonempty list) is set. -/
def decode_leb128s (data : List Nat) : Int :=
  if data.getLastD 0 &&& 0x40 ≠ 0 then
    (decode_leb128u data : Int) - ((1 <<< (data.length * 7) : Nat) : Int)
  else (decode_leb128u data : Int)

/-- `ReadData.remain`. -/
def ReadData.remain (s : ReadData) : Nat :=
  s.data.length - s.rpos

/-- `ReadData.read`: slice up to `size` bytes (may be short), returning
the chunk (with its absolute offset, `rpos = 0` as for a fresh object)
and the advanced cursor. -/
def ReadData.read (s : ReadData) (size : Nat) : ReadData × ReadData :=
  let chunk := (s.data.drop s.rpos).take size
  (⟨chunk, s.fpos + s.rpos, 0⟩, ⟨s.data, s.fpos, s.rpos + chunk.length⟩)

/-- `ReadData.load`: as `read`, but `IOError('not enough data')` if short. -/
def ReadData.load (s : ReadData) (size : Nat) : Except Err (ReadData × ReadData) :=
  if (s.read size).1.data.length ≠ size then .error .truncated
  else .ok (s.read size)

/-- `ReadData.reload(rpos)`: rewind to a saved position and re-load the
bytes from there up to the pre-call position.  A saved position beyond
the current one makes `rlen` negative in Python, whereupon the slice is
empty and `load` raises; the first branch mirrors that. -/
def ReadData.reload (s : ReadData) (rpos : Nat) : Except Err (ReadData × ReadData) :=
  if s.rpos < rpos then .error .truncated
  else ReadData.load ⟨s.data, s.fpos, rpos⟩ (s.rpos - rpos)

/-- `ReadData.byte`: `load(1)` then `data[0]`. -/
def ReadData.byte (s : ReadData) : Except Err (Integer × ReadData) :=
  match s.load 1 with
  | .error e => .error e
  | .ok (d, s₁) => .ok (⟨d.data.headD 0, d⟩, s₁)

/-- `ReadData.long`: `read(4)` then assemble little-endian from
`data[0] | data[1] << 8 | data[2] << 16 | data[3] << 24`; indexing a
short chunk raises `IndexError`. -/
def ReadData.long (s : ReadData) : Except Err (Integer × ReadData) :=
  match (s.read 4).1.data with
  | [b0, b1, b2, b3] =>
    .ok (⟨b0 ||| (b1 <<< 8) ||| (b2 <<< 16) ||| (b3 <<< 24), (s.read 4).1⟩, (s.read 4).2)
  | _ => .error .truncated

/-- Length of the LEB128 group at the head of `dat`: scan until the first
byte with the high bit clear; `none` models the `IndexError` when the
buffer ends first. -/
def lebLen : List Nat → Option Nat
  | [] => none
  | v :: rest =>
    if v &&& 0x80 ≠ 0 then
      match lebLen rest with
      | none => none
      | some m => some (m + 1)
    else some 1

/-- `ReadData.leb128`: read the raw bytes of one LEB128 group. -/
def ReadData.leb128 (s : ReadData) : Except Err (ReadData × ReadData) :=
  match lebLen (s.data.drop s.rpos) with
  | none => .error .truncated
  | some n => .ok (s.read n)

/-- `ReadData.leb128u`. -/
def ReadData.leb128u (s : ReadData) : Except Err (Integer × ReadData) :=
  match s.leb128 with
  | .error e => .error e
  | .ok (d, s₁) => .ok (⟨decode_leb128u d.data, d⟩, s₁)

/-- `ReadData.leb128s`: as `leb128u` but decoded signed.  The `Integer`
carrier holds a Python `int`, which may be negative here, so the signed
value and the chunk are returned as a pair. -/
def ReadData.leb128s (s : ReadData) : Except Err (Int × ReadData × ReadData) :=
  match s.leb128 with
  | .error e => .error e
  | .ok (d, s₁) => .ok (decode_leb128s d.data, d, s₁)

/-- `ReadData.utf8`: LEB128u count, `load` that many bytes, and mutate the
count's chunk in place to also cover the payload (`cnt.data.data += utf8.data`). -/
def ReadData.utf8 (s : ReadData) : Except Err (PyString × ReadData) :=
  match s.leb128u with
  | .error e => .error e
  | .ok (cnt, s₁) =>
    match s₁.load cnt.value with
    | .error e => .error e
    | .ok (payload, s₂) =>
      .ok (⟨payload.data, ⟨cnt.data.data ++ payload.data, cnt.data.fpos, cnt.data.rpos⟩⟩, s₂)




/-- `NUMTYPE` dictionary. -/
def NUMTYPE (c : Nat) : Option String :=
  if c = 0x7F then some "i32"
  else if c = 0x7E then some "i64"
  else if c = 0x7D then some "f32"
  else if c = 0x7C then some "f64"
  else none

/-- `VECTYPE` dictionary. -/
def VECTYPE (c : Nat) : Option String :=
  if c = 0x7B then some "v128" else none

/-- `REFTYPE` dictionary. -/
def REFTYPE (c : Nat) : Option String :=
  if c = 0x70 then some "funcref"
  else if c = 0x6F then some "externref"
  else none

/-- `VALTYPE = NUMTYPE | VECTYPE | REFTYPE`. -/
def VALTYPE (c : Nat) : Option String :=
  ((NUMTYPE c).or (VECTYPE c)).or (REFTYPE c)

/-- One lowercase hex digit. -/
def hexDigit (n : Nat) : Char :=
  if n < 10 then Char.ofNat (48 + n) else Char.ofNat (87 + n)

/-- Python `f'{code:02x}'` for byte-sized codes. -/
def hex2 (n : Nat) : String :=
  String.mk [hexDigit (n / 16 % 16), hexDigit (n % 16)]

/-- `get_valtype`: falls back to a placeholder string, never fails. -/
def get_valtype (code : Nat) : String :=
  match VALTYPE code with
  | some name => name
  | none => "(valtype:0x" ++ hex2 code ++ ")"

/-- `get_reftype`: falls back to a placeholder string, never fails. -/
def get_reftype (code : Nat) : String :=
  match REFTYPE code with
  | some name => name
  | none => "(reftype:0x" ++ hex2 code ++ ")"

/-- `reference_type`: LEB128u code; unknown codes raise. -/
def reference_type (s : ReadData) : Except Err ReadData :=
  match s.leb128u with
  | .error e => .error e
  | .ok (code, s₁) =>
    match REFTYPE code.value with
    | some _ => .ok s₁
    | none => .error .unknownReftype

/-- `value_type`: one byte; unknown codes raise. -/
def value_type (s : ReadData) : Except Err ReadData :=
  match s.byte with
  | .error e => .error e
  | .ok (code, s₁) =>
    match VALTYPE code.value with
    | some _ => .ok s₁
    | none => .error .unknownValtype

/-- `read_valtype`: one byte through `get_valtype`; never raises beyond
truncation. -/
def read_valtype (s : ReadData) : Except Err (String × ReadData) :=
  match s.byte with
  | .error e => .error e
  | .ok (code, s₁) => .ok (get_valtype code.value, s₁)

/-- `read_reftype`: one byte through `get_reftype`. -/
def read_reftype (s : ReadData) : Except Err (String × ReadData) :=
  match s.byte with
  | .error e => .error e
  | .ok (code, s₁) => .ok (get_reftype code.value, s₁)

def planeBRow0 : List Slot := [
  .entry [] ["i32.trunc_sat_f32_s"],
  .entry [] ["i32.trunc_sat_f32_u"],
  .entry [] ["i32.trunc_sat_f64_s"],
  .entry [] ["i32.trunc_sat_f64_u"],
  .entry [] ["i64.trunc_sat_f32_s"],
  .entry [] ["i64.trunc_sat_f32_u"],
  .entry [] ["i64.trunc_sat_f64_s"],
  .entry [] ["i64.trunc_sat_f64_u"],
  .entry [.s "eid", .i 0] ["memory.init", "eid"],
  .entry [.s "did"] ["data.drop", "did"],
  .entry [.i 0, .i 0] ["memory.copy"],
  .entry [.i 0] ["memory.fill"],
  .entry [.s "eid", .s "tid"] ["table.init", "eid", "tid"],
  .entry [.s "mid"] ["elem.drop", "mid"],
  .entry [.s "tid1", .s "tid2"] ["table.copy", "tid1", "tid2"],
  .entry [.s "tid"] ["table.grow", "tid"]
]

def planeBRow1 : List Slot := [
  .entry [.s "tid"] ["table.size", "tid"],
  .entry [.s "tid"] ["table.fill", "tid"],
  .empty,
  .empty,
  .empty,
  .empty,
  .empty,
  .empty,
  .empty,
  .empty,
  .empty,
  .empty,
  .empty,
  .empty,
  .empty,
  .empty
]

def planeBRow2 : List Slot := [
  .empty,
  .empty,
  .empty,
  .empty,
  .empty,
  .empty,
  .empty,
  .empty,
  .empty,
  .empty,
  .empty,
  .empty,
  .empty,
  .empty,
  .empty,
  .empty
]

def planeBRow3 : List Slot := [
  .empty,
  .empty,
  .empty,
  .empty,
  .empty,
  .empty,
  .empty,
  .empty,
  .empty,
  .empty,
  .empty,
  .empty,
  .empty,
  .empty,
  .empty,
  .empty
]

def planeBRow4 : List Slot := [
  .empty,
  .empty,
  .empty,
  .empty,
  .empty,
  .empty,
  .empty,
  .empty,
  .empty,
  .empty,
  .empty,
  .empty,
  .empty,
  .empty,
  .empty,
  .empty
]

def planeBRow5 : List Slot := [
  .empty,
  .empty,
  .empty,
  .empty,
  .empty,
  .empty,
  .empty,
  .empty,
  .empty,
  .empty,
  .empty,
  .empty,
  .empty,
  .empty,
  .empty,
  .empty
]

def planeBRow6 : List Slot := [
  .empty,
  .empty,
  .empty,
  .empty,
  .empty,
  .empty,
  .empty,
  .empty,
  .empty,
  .empty,
  .empty,
  .empty,
  .empty,
  .empty,
  .empty,
  .empty
]

def planeBRow7 : List Slot := [
  .empty,
  .empty,
  .empty,
  .empty,
  .empty,
  .empty,
  .empty,
  .empty,
  .empty,
  .empty,
  .empty,
  .empty,
  .empty,
  .empty,
  .empty,
  .empty
]

def planeBRow8 : List Slot := [
  .empty,
  .empty,
  .empty,
  .empty,
  .empty,
  .empty,
  .empty,
  .empty,
  .empty,
  .empty,
  .empty,
  .empty,
  .empty,
  .empty,
  .empty,
  .empty
]

def planeBRow9 : List Slot := [
  .empty,
  .empty,
  .empty,
  .empty,
  .empty,
  .empty,
  .empty,
  .empty,
  .empty,
  .empty,
  .empty,
  .empty,
  .empty,
  .empty,
  .empty,
  .empty
]

def planeBRowa : List Slot := [
  .empty,
  .empty,
  .empty,
  .empty,
  .empty,
  .empty,
  .empty,
  .empty,
  .empty,
  .empty,
  .empty,
  .empty,
  .empty,
  .empty,
  .empty,
  .empty
]

def planeBRowb : List Slot := [
  .empty,
  .empty,
  .empty,
  .empty,
  .empty,
  .empty,
  .empty,
  .empty,
  .empty,
  .empty,
  .empty,
  .empty,
  .empty,
  .empty,
  .empty,
  .empty
]

def planeBRowc : List Slot := [
  .empty,
  .empty,
  .empty,
  .empty,
  .empty,
  .empty,
  .empty,
  .empty,
  .empty,
  .empty,
  .empty,
  .empty,
  .empty,
  .empty,
  .empty,
  .empty
]

def planeBRowd : List Slot := [
  .empty,
  .empty,
  .empty,
  .empty,
  .empty,
  .empty,
  .empty,
  .empty,
  .empty,
  .empty,
  .empty,
  .empty,
  .empty,
  .empty,
  .empty,
  .empty
]

def planeBRowe : List Slot := [
  .empty,
  .empty,
  .empty,
  .empty,
  .empty,
  .empty,
  .empty,
  .empty,
  .empty,
  .empty,
  .empty,
  .empty,
  .empty,
  .empty,
  .empty,
  .empty
]

def planeBRowf : List Slot := [
  .empty,
  .empty,
  .empty,
  .empty,
  .empty,
  .empty,
  .empty,
  .empty,
  .empty,
  .empty,
  .empty,
  .empty,
  .empty,
  .empty,
  .empty,
  .empty
]

/-- Plane under prefix `0xFC` of `DISASM`. -/
def planeB : List Slot :=
  planeBRow0 ++ planeBRow1 ++ planeBRow2 ++ planeBRow3 ++ planeBRow4 ++ planeBRow5 ++ planeBRow6 ++ planeBRow7 ++ planeBRow8 ++ planeBRow9 ++ planeBRowa ++ planeBRowb ++ planeBRowc ++ planeBRowd ++ planeBRowe ++ planeBRowf

def planeCRow0 : List Slot := [
  .entry [.s "mao"] ["v128.load", "mao"],
  .entry [.s "mao"] ["v128.load8x8_s", "mao"],
  .entry [.s "mao"] ["v128.load8x8_u", "mao"],
  .entry [.s "mao"] ["v128.load16x4_s", "mao"],
  .entry [.s "mao"] ["v128.load16x4_u", "mao"],
  .entry [.s "mao"] ["v128.load32x2_s", "mao"],
  .entry [.s "mao"] ["v128.load32x2_u", "mao"],
  .entry [.s "mao"] ["v128.load8_splat", "mao"],
  .entry [.s "mao"] ["v128.load16_splat", "mao"],
  .entry [.s "mao"] ["v128.load32_splat", "mao"],
  .entry [.s "mao"] ["v128.load64_splat", "mao"],
  .entry [.s "mao"] ["v128.store", "mao"],
  .entry [.s "vb16"] ["v128.const", "vb16"],
  .entry [.s "vlt"] ["i8x16.shuffle", "vlt"],
  .entry [] ["i8x16.swizzle"],
  .entry [] ["i8x16.splat"]
]

def planeCRow1 : List Slot := [
  .entry [] ["i16x8.splat"],
  .entry [] ["i32x4.splat"],
  .entry [] ["i64x2.splat"],
  .entry [] ["f32x4.splat"],
  .entry [] ["f64x2.splat"],
  .entry [.s "vl"] ["i8x16.extract_lane_s", "vl"],
  .entry [.s "vl"] ["i8x16.extract_lane_u", "vl"],
  .entry [.s "vl"] ["i8x16.replace_lane", "vl"],
  .entry [.s "vl"] ["i16x8.extract_lane_s", "vl"],
  .entry [.s "vl"] ["i16x8.extract_lane_u", "vl"],
  .entry [.s "vl"] ["i16x8.replace_lane", "vl"],
  .entry [.s "vl"] ["i32x4.extract_lane", "vl"],
  .entry [.s "vl"] ["i32x4.replace_lane", "vl"],
  .entry [.s "vl"] ["i64x2.extract_lane", "vl"],
  .entry [.s "vl"] ["i64x2.replace_lane", "vl"],
  .entry [.s "vl"] ["f32x4.extract_lane", "vl"]
]

def planeCRow2 : List Slot := [
  .entry [.s "vl"] ["f32x4.replace_lane", "vl"],
  .entry [.s "vl"] ["f64x2.extract_lane", "vl"],
  .entry [.s "vl"] ["f64x2.replace_lane", "vl"],
  .entry [] ["i8x16.eq"],
  .entry [] ["i8x16.ne"],
  .entry [] ["i8x16.lt_s"],
  .entry [] ["i8x16.lt_u"],
  .entry [] ["i8x16.gt_s"],
  .entry [] ["i8x16.gt_u"],
  .entry [] ["i8x16.le_s"],
  .entry [] ["i8x16.le_u"],
  .entry [] ["i8x16.ge_s"],
  .entry [] ["i8x16.ge_u"],
  .entry [] ["i16x8.eq"],
  .entry [] ["i16x8.ne"],
  .entry [] ["i16x8.lt_s"]
]

def planeCRow3 : List Slot := [
  .entry [] ["i16x8.lt_u"],
  .entry [] ["i16x8.gt_s"],
  .entry [] ["i16x8.gt_u"],
  .entry [] ["i16x8.le_s"],
  .entry [] ["i16x8.le_u"],
  .entry [] ["i16x8.ge_s"],
  .entry [] ["i16x8.ge_u"],
  .entry [] ["i32x4.eq"],
  .entry [] ["i32x4.ne"],
  .entry [] ["i32x4.lt_s"],
  .entry [] ["i32x4.lt_u"],
  .entry [] ["i32x4.gt_s"],
  .entry [] ["i32x4.gt_u"],
  .entry [] ["i32x4.le_s"],
  .entry [] ["i32x4.le_u"],
  .entry [] ["i32x4.ge_s"]
]

def planeCRow4 : List Slot := [
  .entry [] ["i32x4.ge_u"],
  .entry [] ["f32x4.eq"],
  .entry [] ["f32x4.ne"],
  .entry [] ["f32x4.lt"],
  .entry [] ["f32x4.gt"],
  .entry [] ["f32x4.le"],
  .entry [] ["f32x4.ge"],
  .entry [] ["f64x2.eq"],
  .entry [] ["f64x2.ne"],
  .entry [] ["f64x2.lt"],
  .entry [] ["f64x2.gt"],
  .entry [] ["f64x2.le"],
  .entry [] ["f64x2.ge"],
  .entry [] ["v128.not"],
  .entry [] ["v128.and"],
  .entry [] ["v128.andnot"]
]

def planeCRow5 : List Slot := [
  .entry [] ["v128.or"],
  .entry [] ["v128.xor"],
  .entry [] ["v128.bitselect"],
  .entry [] ["v128.any_true"],
  .entry [.s "mao", .s "vl"] ["v128.load8_lane", "mao", "vl"],
  .entry [.s "mao", .s "vl"] ["v128.load16_lane", "mao", "vl"],
  .entry [.s "mao", .s "vl"] ["v128.load32_lane", "mao", "vl"],
  .entry [.s "mao", .s "vl"] ["v128.load64_lane", "mao", "vl"],
  .entry [.s "mao", .s "vl"] ["v128.store8_lane", "mao", "vl"],
  .entry [.s "mao", .s "vl"] ["v128.store16_lane", "mao", "vl"],
  .entry [.s "mao", .s "vl"] ["v128.store32_lane", "mao", "vl"],
  .entry [.s "mao", .s "vl"] ["v128.store64_lane", "mao", "vl"],
  .entry [.s "mao"] ["v128.load32_zero", "mao"],
  .entry [.s "mao"] ["v128.load64_zero", "mao"],
  .entry [] ["f32x4.demote_f64x2_zero"],
  .entry [] ["f64x2.promote_low_f32x4"]
]

def planeCRow6 : List Slot := [
  .entry [] ["i8x16.abs"],
  .entry [] ["i8x16.neg"],
  .entry [] ["i8x16.popcnt"],
  .entry [] ["i8x16.all_true"],
  .entry [] ["i8x16.bitmask"],
  .entry [] ["i8x16.narrow_i16x8_s"],
  .entry [] ["i8x16.narrow_i16x8_u"],
  .entry [] ["f32x4.ceil"],
  .entry [] ["f32x4.floor"],
  .entry [] ["f32x4.trunc"],
  .entry [] ["f32x4.nearest"],
  .entry [] ["i8x16.shl"],
  .entry [] ["i8x16.shr_s"],
  .entry [] ["i8x16.shr_u"],
  .entry [] ["i8x16.add"],
  .entry [] ["i8x16.add_sat_s"]
]

def planeCRow7 : List Slot := [
  .entry [] ["i8x16.add_sat_u"],
  .entry [] ["i8x16.sub"],
  .entry [] ["i8x16.sub_sat_s"],
  .entry [] ["i8x16.sub_sat_u"],
  .entry [] ["f64x2.ceil"],
  .entry [] ["f64x2.floor"],
  .entry [] ["i8x16.min_s"],
  .entry [] ["i8x16.min_u"],
  .entry [] ["i8x16.max_s"],
  .entry [] ["i8x16.max_u"],
  .entry [] ["f64x2.trunc"],
  .entry [] ["i8x16.avr_u"],
  .entry [] ["i16x8.extadd_pairwise_i8x16_s"],
  .entry [] ["i16x8.extadd_pairwise_i8x16_u"],
  .entry [] ["i32x4.extadd_pairwise_i16x8_s"],
  .entry [] ["i32x4.extadd_pairwise_i16x8_u"]
]

def planeCRow8 : List Slot := [
  .entry [] ["i16x8.abs"],
  .entry [] ["i16x8.neg"],
  .entry [] ["i16x8.q15mulr_sat_s"],
  .entry [] ["i16x8.all_true"],
  .entry [] ["i16x8.bitmask"],
  .entry [] ["i16x8.narrow_i32x4_s"],
  .entry [] ["i16x8.narrow_i32x4_u"],
  .entry [] ["i16x8.extend_low_i8x16_s"],
  .entry [] ["i16x8.extend_high_i8x16_s"],
  .entry [] ["i16x8.extend_low_i8x16_u"],
  .entry [] ["i16x8.extend_high_i8x16_u"],
  .entry [] ["i16x8.shl"],
  .entry [] ["i16x8.shr_s"],
  .entry [] ["i16x8.shr_u"],
  .entry [] ["i16x8.add"],
  .entry [] ["i16x8.add_sat_s"]
]

def planeCRow9 : List Slot := [
  .entry [] ["i16x8.add_sat_u"],
  .entry [] ["i16x8.sub"],
  .entry [] ["i16x8.sub_sat_s"],
  .entry [] ["i16x8.sub_sat_u"],
  .entry [] ["f64x2.nearest"],
  .entry [] ["i16x8.mul"],
  .entry [] ["i16x8.min_s"],
  .entry [] ["i16x8.min_u"],
  .entry [] ["i16x8.max_s"],
  .entry [] ["i16x8.max_u"],
  .empty,
  .entry [] ["i16x8.avr_u"],
  .entry [] ["i16x8.extmul_low_i8x16_s"],
  .entry [] ["i16x8.extmul_high_i8x16_s"],
  .entry [] ["i16x8.extmul_low_i8x16_u"],
  .entry [] ["i16x8.extmul_high_i8x16_u"]
]

def planeCRowa : List Slot := [
  .entry [] ["i32x4.abs"],
  .entry [] ["i32x4.neg"],
  .empty,
  .entry [] ["i32x4.all_true"],
  .entry [] ["i32x4.bitmask"],
  .entry [] ["i32x4.narrow_i32x4_s"],
  .entry [] ["i32x4.narrow_i32x4_u"],
  .entry [] ["i32x4.extend_low_i16x8_s"],
  .entry [] ["i32x4.extend_high_i16x8_s"],
  .entry [] ["i32x4.extend_low_i16x8_u"],
  .entry [] ["i32x4.extend_high_i16x8_u"],
  .entry [] ["i32x4.shl"],
  .entry [] ["i32x4.shr_s"],
  .entry [] ["i32x4.shr_u"],
  .entry [] ["i32x4.add"],
  .empty
]

def planeCRowb : List Slot := [
  .empty,
  .entry [] ["i32x4.sub"],
  .empty,
  .empty,
  .empty,
  .entry [] ["i32x4.mul"],
  .entry [] ["i32x4.min_s"],
  .entry [] ["i32x4.min_u"],
  .entry [] ["i32x4.max_s"],
  .entry [] ["i32x4.max_u"],
  .entry [] ["i32x4.dot_i16x8_s"],
  .empty,
  .entry [] ["i32x4.extmul_low_i16x8_s"],
  .entry [] ["i32x4.extmul_high_i16x8_s"],
  .entry [] ["i32x4.extmul_low_i16x8_u"],
  .entry [] ["i32x4.extmul_high_i16x8_u"]
]

def planeCRowc : List Slot := [
  .entry [] ["i64x2.abs"],
  .entry [] ["i64x2.neg"],
  .empty,
  .entry [] ["i64x2.all_true"],
  .entry [] ["i64x2.bitmask"],
  .empty,
  .empty,
  .entry [] ["i64x2.extend_low_i32x4_s"],
  .entry [] ["i64x2.extend_high_i32x4_s"],
  .entry [] ["i64x2.extend_low_i32x4_u"],
  .entry [] ["i64x2.extend_high_i32x4_u"],
  .entry [] ["i64x2.shl"],
  .entry [] ["i64x2.shr_s"],
  .entry [] ["i64x2.shr_u"],
  .entry [] ["i64x2.add"],
  .empty
]

def planeCRowd : List Slot := [
  .empty,
  .entry [] ["i64x2.sub"],
  .empty,
  .empty,
  .empty,
  .entry [] ["i64x2.mul"],
  .entry [] ["i64x2.eq"],
  .entry [] ["i64x2.ne"],
  .entry [] ["i64x2.lt_s"],
  .entry [] ["i64x2.gt_s"],
  .entry [] ["i64x2.le_s"],
  .entry [] ["i64x2.ge_s"],
  .entry [] ["i64x2.extmul_low_i8x16_s"],
  .entry [] ["i64x2.extmul_high_i8x16_s"],
  .entry [] ["i64x2.extmul_low_i8x16_u"],
  .entry [] ["i64x2.extmul_high_i8x16_u"]
]

def planeCRowe : List Slot := [
  .entry [] ["f32x4.abs"],
  .entry [] ["f32x4.neg"],
  .empty,
  .entry [] ["f32x4.sqrt"],
  .entry [] ["f32x4.add"],
  .entry [] ["f32x4.sub"],
  .entry [] ["f32x4.mul"],
  .entry [] ["f32x4.div"],
  .entry [] ["f32x4.min"],
  .entry [] ["f32x4.max"],
  .entry [] ["f32x4.pmin"],
  .entry [] ["f32x4.pmax"],
  .entry [] ["f64x2.abs"],
  .entry [] ["f64x2.neg"],
  .empty,
  .entry [] ["f64x2.sqrt"]
]

def planeCRowf : List Slot := [
  .entry [] ["f64x2.add"],
  .entry [] ["f64x2.sub"],
  .entry [] ["f64x2.mul"],
  .entry [] ["f64x2.div"],
  .entry [] ["f64x2.min"],
  .entry [] ["f64x2.max"],
  .entry [] ["f64x2.pmin"],
  .entry [] ["f64x2.pmax"],
  .entry [] ["i32x4.trunc_sat_f32x4_s"],
  .entry [] ["i32x4.trunc_sat_f32x4_u"],
  .entry [] ["f32x4.convert_i32x4_s"],
  .entry [] ["f32x4.convert_i32x4_u"],
  .entry [] ["i32x4.trunc_sat_f64x2_s_zero"],
  .entry [] ["i32x4.trunc_sat_f64x2_u_zero"],
  .entry [] ["f64x2.convert_low_i32x4_s"],
  .entry [] ["f64x2.convert_low_i32x4_u"]
]

/-- Plane under prefix `0xFD` of `DISASM`. -/
def planeC : List Slot :=
  planeCRow0 ++ planeCRow1 ++ planeCRow2 ++ planeCRow3 ++ planeCRow4 ++ planeCRow5 ++ planeCRow6 ++ planeCRow7 ++ planeCRow8 ++ planeCRow9 ++ planeCRowa ++ planeCRowb ++ planeCRowc ++ planeCRowd ++ planeCRowe ++ planeCRowf

def DISASMRow0 : List Slot := [
  .entry [] ["unreachable"],
  .entry [] ["nop"],
  .entry [.s "bt"] ["block", "bt"],
  .entry [.s "bt"] ["loop", "bt"],
  .entry [.s "bt"] ["if", "bt"],
  .entry [] ["else"],
  .empty,
  .empty,
  .empty,
  .empty,
  .empty,
  .entry [] ["end"],
  .entry [.s "lid"] ["br", "lid"],
  .entry [.s "lid"] ["br_if", "lid"],
  .entry [.s "lid+"] ["br_table", "lid+"],
  .entry [] ["return"]
]

def DISASMRow1 : List Slot := [
  .entry [.s "fid"] ["call", "fid"],
  .entry [.s "xid", .s "tid"] ["call_indirect", "xid", "tid"],
  .empty,
  .empty,
  .empty,
  .empty,
  .empty,
  .empty,
  .empty,
  .empty,
  .entry [] ["drop"],
  .entry [] ["select"],
  .entry [.s "t+"] ["select", "t+"],
  .empty,
  .empty,
  .empty
]

def DISASMRow2 : List Slot := [
  .entry [.s "lid"] ["local.get", "lid"],
  .entry [.s "lid"] ["local.set", "lid"],
  .entry [.s "lid"] ["local.tee", "lid"],
  .entry [.s "gid"] ["global.get", "gid"],
  .entry [.s "gid"] ["global.set", "gid"],
  .entry [.s "tid"] ["table.get", "tid"],
  .entry [.s "tid"] ["table.set", "tid"],
  .empty,
  .entry [.s "mao"] ["i32.load", "mao"],
  .entry [.s "mao"] ["i64.load", "mao"],
  .entry [.s "mao"] ["f32.load", "mao"],
  .entry [.s "mao"] ["f64.load", "mao"],
  .entry [.s "mao"] ["i32.load8_s", "mao"],
  .entry [.s "mao"] ["i32.load8_u", "mao"],
  .entry [.s "mao"] ["i32.load16_s", "mao"],
  .entry [.s "mao"] ["i32.load16_u", "mao"]
]

def DISASMRow3 : List Slot := [
  .entry [.s "mao"] ["i64.load8_s", "mao"],
  .entry [.s "mao"] ["i64.load8_u", "mao"],
  .entry [.s "mao"] ["i64.load16_s", "mao"],
  .entry [.s "mao"] ["i64.load16_u", "mao"],
  .entry [.s "mao"] ["i64.load32_s", "mao"],
  .entry [.s "mao"] ["i64.load32_u", "mao"],
  .entry [.s "mao"] ["i32.store", "mao"],
  .entry [.s "mao"] ["i64.store", "mao"],
  .entry [.s "mao"] ["f32.store", "mao"],
  .entry [.s "mao"] ["f64.store", "mao"],
  .entry [.s "mao"] ["i32.store8", "mao"],
  .entry [.s "mao"] ["i32.store16", "mao"],
  .entry [.s "mao"] ["i64.store8", "mao"],
  .entry [.s "mao"] ["i64.store16", "mao"],
  .entry [.s "mao"] ["i64.store32", "mao"],
  .entry [.i 0] ["memory.size"]
]

def DISASMRow4 : List Slot := [
  .entry [.i 0] ["memory.grow"],
  .entry [.s "i32"] ["i32.const", "i32"],
  .entry [.s "i64"] ["i64.const", "i64"],
  .entry [.s "f32"] ["f32.const", "f32"],
  .entry [.s "f64"] ["f64.const", "f64"],
  .entry [] ["i32.eqz"],
  .entry [] ["i32.eq"],
  .entry [] ["i32.ne"],
  .entry [] ["i32.lt_s"],
  .entry [] ["i32.lt_u"],
  .entry [] ["i32.gt_s"],
  .entry [] ["i32.gt_u"],
  .entry [] ["i32.le_s"],
  .entry [] ["i32.le_u"],
  .entry [] ["i32.ge_s"],
  .entry [] ["i32.ge_u"]
]

def DISASMRow5 : List Slot := [
  .entry [] ["i64.eqz"],
  .entry [] ["i64.eq"],
  .entry [] ["i64.ne"],
  .entry [] ["i64.lt_s"],
  .entry [] ["i64.lt_u"],
  .entry [] ["i64.gt_s"],
  .entry [] ["i64.gt_u"],
  .entry [] ["i64.le_s"],
  .entry [] ["i64.le_u"],
  .entry [] ["i64.ge_s"],
  .entry [] ["i64.ge_u"],
  .entry [] ["f32.eq"],
  .entry [] ["f32.ne"],
  .entry [] ["f32.lt"],
  .entry [] ["f32.gt"],
  .entry [] ["f32.le"]
]

def DISASMRow6 : List Slot := [
  .entry [] ["f32.ge"],
  .entry [] ["f64.eq"],
  .entry [] ["f64.ne"],
  .entry [] ["f64.lt"],
  .entry [] ["f64.gt"],
  .entry [] ["f64.le"],
  .entry [] ["f64.ge"],
  .entry [] ["i32.clz"],
  .entry [] ["i32.ctz"],
  .entry [] ["i32.popcnt"],
  .entry [] ["i32.add"],
  .entry [] ["i32.sub"],
  .entry [] ["i32.mul"],
  .entry [] ["i32.div_s"],
  .entry [] ["i32.div_u"],
  .entry [] ["i32.rem_s"]
]

def DISASMRow7 : List Slot := [
  .entry [] ["i32.rem_u"],
  .entry [] ["i32.and"],
  .entry [] ["i32.or"],
  .entry [] ["i32.xor"],
  .entry [] ["i32.shl"],
  .entry [] ["i32.shr_s"],
  .entry [] ["i32.shr_u"],
  .entry [] ["i32.rotl"],
  .entry [] ["i32.rotr"],
  .entry [] ["i64.clz"],
  .entry [] ["i64.ctz"],
  .entry [] ["i64.popcnt"],
  .entry [] ["i64.add"],
  .entry [] ["i64.sub"],
  .entry [] ["i64.mul"],
  .entry [] ["i64.div_s"]
]

def DISASMRow8 : List Slot := [
  .entry [] ["i64.div_u"],
  .entry [] ["i64.rem_s"],
  .entry [] ["i64.rem_u"],
  .entry [] ["i64.and"],
  .entry [] ["i64.or"],
  .entry [] ["i64.xor"],
  .entry [] ["i64.shl"],
  .entry [] ["i64.shr_s"],
  .entry [] ["i64.shr_u"],
  .entry [] ["i64.rotl"],
  .entry [] ["i64.rotr"],
  .entry [] ["f32.abs"],
  .entry [] ["f32.neg"],
  .entry [] ["f32.ceil"],
  .entry [] ["f32.floor"],
  .entry [] ["f32.trunc"]
]

def DISASMRow9 : List Slot := [
  .entry [] ["f32.nearest"],
  .entry [] ["f32.sqrt"],
  .entry [] ["f32.add"],
  .entry [] ["f32.sub"],
  .entry [] ["f32.mul"],
  .entry [] ["f32.div"],
  .entry [] ["f32.min"],
  .entry [] ["f32.max"],
  .entry [] ["f32.copysign"],
  .entry [] ["f64.abs"],
  .entry [] ["f64.neg"],
  .entry [] ["f64.ceil"],
  .entry [] ["f64.floor"],
  .entry [] ["f64.trunc"],
  .entry [] ["f64.nearest"],
  .entry [] ["f64.sqrt"]
]

def DISASMRowa : List Slot := [
  .entry [] ["f64.add"],
  .entry [] ["f64.sub"],
  .entry [] ["f64.mul"],
  .entry [] ["f64.div"],
  .entry [] ["f64.min"],
  .entry [] ["f64.max"],
  .entry [] ["f64.copysign"],
  .entry [] ["i32.wrap"],
  .entry [] ["i32.trunc_f32_s"],
  .entry [] ["i32.trunc_f32_u"],
  .entry [] ["i32.trunc_f64_s"],
  .entry [] ["i32.trunc_f64_u"],
  .entry [] ["i64.extend_i32_s"],
  .entry [] ["i64.extend_i32_u"],
  .entry [] ["i64.trunc_f32_s"],
  .entry [] ["i64.trunc_f32_u"]
]

def DISASMRowb : List Slot := [
  .entry [] ["i64.trunc_f64_s"],
  .entry [] ["i64.trunc_f64_u"],
  .entry [] ["f32.convert_i32_s"],
  .entry [] ["f32.convert_i32_u"],
  .entry [] ["f32.convert_i64_s"],
  .entry [] ["f32.convert_i64_u"],
  .entry [] ["f32.demote_f64"],
  .entry [] ["f64.convert_i32_s"],
  .entry [] ["f64.convert_i32_u"],
  .entry [] ["f64.convert_i64_s"],
  .entry [] ["f64.convert_i64_u"],
  .entry [] ["f64.promote_f32"],
  .entry [] ["i32.reinterpret_f32"],
  .entry [] ["i64.reinterpret_f64"],
  .entry [] ["f32.reinterpret_i32"],
  .entry [] ["f64.reinterpret_i64"]
]

def DISASMRowc : List Slot := [
  .entry [] ["i32.extend8_s"],
  .entry [] ["i32.extend16_s"],
  .entry [] ["i64.extend8_s"],
  .entry [] ["i64.extend16_s"],
  .entry [] ["i64.extend32_s"],
  .empty,
  .empty,
  .empty,
  .empty,
  .empty,
  .empty,
  .empty,
  .empty,
  .empty,
  .empty,
  .empty
]

def DISASMRowd : List Slot := [
  .entry [.s "ref"] ["ref.null", "ref"],
  .entry [] ["ref.is_null"],
  .entry [.s "fid"] ["ref.func", "fid"],
  .empty,
  .empty,
  .empty,
  .empty,
  .empty,
  .empty,
  .empty,
  .empty,
  .empty,
  .empty,
  .empty,
  .empty,
  .empty
]

def DISASMRowe : List Slot := [
  .empty,
  .empty,
  .empty,
  .empty,
  .empty,
  .empty,
  .empty,
  .empty,
  .empty,
  .empty,
  .empty,
  .empty,
  .empty,
  .empty,
  .empty,
  .empty
]

def DISASMRowf : List Slot := [
  .empty,
  .empty,
  .empty,
  .empty,
  .empty,
  .empty,
  .empty,
  .empty,
  .empty,
  .empty,
  .empty,
  .empty,
  .sub planeB,
  .sub planeC,
  .empty,
  .empty
]

/-- `DISASM`: the three-plane opcode table of the source, split in
rows of 16 slots; the nested 256-entry planes for prefixes `0xFC` and
`0xFD` sit at those indices as in the source literal. -/
def DISASM : List Slot :=
  DISASMRow0 ++ DISASMRow1 ++ DISASMRow2 ++ DISASMRow3 ++ DISASMRow4 ++ DISASMRow5 ++ DISASMRow6 ++ DISASMRow7 ++ DISASMRow8 ++ DISASMRow9 ++ DISASMRowa ++ DISASMRowb ++ DISASMRowc ++ DISASMRowd ++ DISASMRowe ++ DISASMRowf




/-- Python list indexing, raising `IndexError` out of range. -/
def listGet (l : List a) (n : Nat) : Except Err a :=
  match l.get? n with
  | some x => .ok x
  | none => .error .indexError

/-- The operand-kind set of source line 825-830, all decoded as LEB128u. -/
def idOps : List PyVal :=
  [.s "i32", .s "i64",
   .s "did", .s "eid", .s "fid", .s "gid", .s "lid", .s "mid",
   .s "tid", .s "tid1", .s "tid2",
   .s "xid"]

/-- The `t+` loop body: `count` iterations of `read_valtype` (which never
raises beyond truncation). -/
def readValtypes : Nat -> ReadData -> Except Err ReadData
  | 0, s => .ok s
  | n + 1, s =>
    match read_valtype s with
    | .error e => .error e
    | .ok (_, s1) => readValtypes n s1

/-- The `lid+` loop body: `count` iterations of `leb128u`. -/
def readLabels : Nat -> ReadData -> Except Err ReadData
  | 0, s => .ok s
  | n + 1, s =>
    match s.leb128u with
    | .error e => .error e
    | .ok (_, s1) => readLabels n s1

/-- Display name of an operand for the fall-through error of source line
890 (`f'{asm[0]} -> {op}'`). -/
def PyVal.display : PyVal -> String
  | .s v => v
  | .i v => toString v
  | .t2 a b => "(" ++ a ++ ", " ++ b ++ ")"

/-- Operand decode for the index-like kinds of source lines 825-833
(one LEB128u). -/
def opLebU (s : ReadData) : Except Err ReadData :=
  match s.leb128u with
  | .error e => .error e
  | .ok (_, s1) => .ok s1

/-- Operand decode for `f32`/`f64` (and the dead 16-byte branch of line
844): a fixed-size `load`. -/
def opLoad (k : Nat) (s : ReadData) : Except Err ReadData :=
  match s.load k with
  | .error e => .error e
  | .ok (_, s1) => .ok s1

/-- Operand decode for `vl` (source lines 847-850): one byte. -/
def opByte (s : ReadData) : Except Err ReadData :=
  match s.byte with
  | .error e => .error e
  | .ok (_, s1) => .ok s1

/-- Operand decode for `mao` (source lines 852-857): align then offset,
both LEB128u. -/
def opMao (s : ReadData) : Except Err ReadData :=
  match s.leb128u with
  | .error e => .error e
  | .ok (_, s1) =>
    match s1.leb128u with
    | .error e => .error e
    | .ok (_, s2) => .ok s2

/-- Operand decode for `bt` (source lines 859-867): the raw LEB128 bytes;
the branching on the first byte only affects the printed string. -/
def opBt (s : ReadData) : Except Err ReadData :=
  match s.leb128 with
  | .error e => .error e
  | .ok (_, s1) => .ok s1

/-- Operand decode for `t+` (source lines 869-876): LEB128u count then
that many `read_valtype`. -/
def opTplus (s : ReadData) : Except Err ReadData :=
  match s.leb128u with
  | .error e => .error e
  | .ok (cnt, s1) => readValtypes cnt.value s1

/-- Operand decode for `lid+` (source lines 877-884): LEB128u count then
that many LEB128u labels. -/
def opLidplus (s : ReadData) : Except Err ReadData :=
  match s.leb128u with
  | .error e => .error e
  | .ok (cnt, s1) => readLabels cnt.value s1

/-- Operand decode for `ref` (source lines 885-888): one byte through
`get_reftype`. -/
def opRef (s : ReadData) : Except Err ReadData :=
  match read_reftype s with
  | .error e => .error e
  | .ok (_, s1) => .ok s1

/-- Operand decode for an integer-literal kind (source lines 815-823):
one byte that must equal the literal. -/
def opLit (n : Nat) (s : ReadData) : Except Err ReadData :=
  match s.byte with
  | .error e => .error e
  | .ok (sfx, s1) =>
    if n = sfx.value then .ok s1 else .error .unknownLiteralCode

/-- One iteration of the operand loop of `instruction` (source lines
814-890).  The branch structure and order mirror the source; in
particular the comparison `op == ('vb16', 'vlt')` of line 843 compares
the operand against a *tuple*, which is always false for the string
operands stored in the table, so the 16-byte load there is dead code and
`'vb16'`/`'vlt'` fall through to the final raise of line 890. -/
def readOperand (mnem : String) (s : ReadData) (op : PyVal) : Except Err ReadData :=
  match op with
  | .i n => opLit n s
  | _ =>
    if op ∈ idOps then opLebU s
    else if op = .s "f32" then opLoad 4 s
    else if op = .s "f64" then opLoad 8 s
    else if op = .t2 "vb16" "vlt" then opLoad 16 s
    else if op = .s "vl" then opByte s
    else if op = .s "mao" then opMao s
    else if op = .s "bt" then opBt s
    else if op = .s "t+" then opTplus s
    else if op = .s "lid+" then opLidplus s
    else if op = .s "ref" then opRef s
    else .error (.unhandledOperand mnem op.display)

/-- The two-byte-plane dispatch of `instruction` (source lines 797-800):
for first byte `0xFC`/`0xFD` read a LEB128u sub-opcode and index the
nested plane.  Only those two top-level slots hold nested planes, so the
non-`sub` fallback is unreachable. -/
def resolvePlane (code1 : Nat) (slot0 : Slot) (s1 : ReadData) :
    Except Err (Slot × ReadData) :=
  if code1 = 0xFC ∨ code1 = 0xFD then
    match s1.leb128u with
    | .error e => .error e
    | .ok (scode2, s2) =>
      match slot0 with
      | .sub t =>
        match listGet t scode2.value with
        | .error e => .error e
        | .ok e => .ok (e, s2)
      | _ => .error .indexError
  else .ok (slot0, s1)

/-- `instruction` (source lines 792-892), with the printing elided: read
the opcode byte, resolve the table slot (possibly via a sub-opcode),
rebuild the opcode Span via `reload`, fail on an empty slot, then decode
each operand in order; return the mnemonic `asm[0]` and the advanced
cursor.  The indentation parameters only affect printing and are
dropped. -/
def instruction (s0 : ReadData) : Except Err (String × ReadData) :=
  match s0.byte with
  | .error e => .error e
  | .ok (scode1, s1) =>
    match listGet DISASM scode1.value with
    | .error e => .error e
    | .ok slot0 =>
      match resolvePlane scode1.value slot0 s1 with
      | .error e => .error e
      | .ok (ins, s2) =>
        match s2.reload s0.rpos with
        | .error e => .error e
        | .ok (_data, s3) =>
          match ins with
          | .sub _ => .error .indexError
          | .empty => .error .unknownInstruction
          | .entry ops asm =>
            match listGet asm 0 with
            | .error e => .error e
            | .ok mnem =>
              match List.foldlM (readOperand mnem) s3 ops with
              | .error e => .error e
              | .ok s4 => .ok (mnem, s4)


/-! ### Specification lemmas for the cursor primitives

Each lemma characterizes a successful call field-wise: the chunk's
absolute offset and length, and the advanced cursor. -/

theorem read_fst (s : ReadData) (n : Nat) :
    (s.read n).1 = ⟨(s.data.drop s.rpos).take n, s.fpos + s.rpos, 0⟩ := rfl

theorem read_snd (s : ReadData) (n : Nat) :
    (s.read n).2 = ⟨s.data, s.fpos, s.rpos + ((s.data.drop s.rpos).take n).length⟩ := rfl

theorem read_chunk_len (s : ReadData) (n : Nat) :
    (s.read n).1.data.length = min n (s.data.length - s.rpos) := by
  simp [ReadData.read]

theorem load_ok {s : ReadData} {n : Nat} {c t : ReadData}
    (h : s.load n = .ok (c, t)) :
    c.data = (s.data.drop s.rpos).take n ∧ c.fpos = s.fpos + s.rpos ∧
    c.rpos = 0 ∧ c.data.length = n ∧
    t.data = s.data ∧ t.fpos = s.fpos ∧ t.rpos = s.rpos + n ∧
    min n (s.data.length - s.rpos) = n := by
  unfold ReadData.load at h
  split at h
  · cases h
  · next hlen =>
    rw [not_ne_iff, read_chunk_len] at hlen
    simp only [ReadData.read, Except.ok.injEq, Prod.mk.injEq] at h
    obtain ⟨hc, ht⟩ := h
    subst hc
    subst ht
    have hl : ((s.data.drop s.rpos).take n).length = n := by
      simp only [List.length_take, List.length_drop]
      omega
    exact ⟨rfl, rfl, rfl, hl, rfl, rfl, by simp [hl], hlen⟩

theorem byte_ok {s : ReadData} {v : Integer} {t : ReadData}
    (h : s.byte = .ok (v, t)) :
    v.data.fpos = s.fpos + s.rpos ∧ v.data.data.length = 1 ∧
    t.data = s.data ∧ t.fpos = s.fpos ∧ t.rpos = s.rpos + 1 ∧
    s.rpos + 1 ≤ s.data.length := by
  unfold ReadData.byte at h
  split at h
  · cases h
  · next d s1 heq =>
    cases h
    obtain ⟨hcd, hcf, hcr, hcl, htd, htf, htr, hmin⟩ := load_ok heq
    exact ⟨hcf, hcl, htd, htf, htr, by omega⟩

theorem long_ok {s : ReadData} {v : Integer} {t : ReadData}
    (h : s.long = .ok (v, t)) :
    v.data.fpos = s.fpos + s.rpos ∧ v.data.data.length = 4 ∧
    t.data = s.data ∧ t.fpos = s.fpos ∧ t.rpos = s.rpos + 4 ∧
    s.rpos + 4 ≤ s.data.length := by
  unfold ReadData.long at h
  split at h
  · next b0 b1 b2 b3 hdat =>
    cases h
    have hlen : (s.read 4).1.data.length = 4 := by rw [hdat]; rfl
    have hmin := read_chunk_len s 4
    rw [hlen] at hmin
    have hl2 : ((s.data.drop s.rpos).take 4).length = 4 := hlen
    refine ⟨rfl, hlen, rfl, rfl, ?_, by omega⟩
    show s.rpos + ((s.data.drop s.rpos).take 4).length = s.rpos + 4
    rw [hl2]
  · cases h

theorem lebLen_bounds : ∀ {l : List Nat} {n : Nat},
    lebLen l = some n → 1 ≤ n ∧ n ≤ l.length := by
  intro l
  induction l with
  | nil => intro n h; cases h
  | cons v rest ih =>
    intro n h
    unfold lebLen at h
    split at h
    · split at h
      · cases h
      · next m hm =>
        cases h
        obtain ⟨h1, h2⟩ := ih hm
        simp only [List.length_cons]
        omega
    · cases h
      simp only [List.length_cons]
      omega

theorem leb128_ok {s : ReadData} {c t : ReadData}
    (h : s.leb128 = .ok (c, t)) :
    ∃ n, lebLen (s.data.drop s.rpos) = some n ∧ 1 ≤ n ∧
      c.data = (s.data.drop s.rpos).take n ∧
      c.fpos = s.fpos + s.rpos ∧ c.data.length = n ∧
      t.data = s.data ∧ t.fpos = s.fpos ∧ t.rpos = s.rpos + n ∧
      s.rpos + n ≤ s.data.length := by
  unfold ReadData.leb128 at h
  split at h
  · cases h
  · next n hn =>
    obtain ⟨h1, h2⟩ := lebLen_bounds hn
    have hdl : (s.data.drop s.rpos).length = s.data.length - s.rpos := by
      simp
    rw [hdl] at h2
    have hlen : ((s.data.drop s.rpos).take n).length = n := by
      simp only [List.length_take, List.length_drop]
      omega
    simp only [ReadData.read, Except.ok.injEq, Prod.mk.injEq] at h
    obtain ⟨hc, ht⟩ := h
    subst hc
    subst ht
    exact ⟨n, hn, h1, rfl, rfl, hlen, rfl, rfl, by simp [hlen], by omega⟩

theorem leb128u_ok {s : ReadData} {v : Integer} {t : ReadData}
    (h : s.leb128u = .ok (v, t)) :
    ∃ n, 1 ≤ n ∧ v.data.fpos = s.fpos + s.rpos ∧ v.data.data.length = n ∧
      t.data = s.data ∧ t.fpos = s.fpos ∧ t.rpos = s.rpos + n ∧
      s.rpos + n ≤ s.data.length := by
  unfold ReadData.leb128u at h
  split at h
  · cases h
  · next d s1 heq =>
    cases h
    obtain ⟨n, hn, h1, hcd, hcf, hcl, htd, htf, htr, hb⟩ := leb128_ok heq
    exact ⟨n, h1, hcf, hcl, htd, htf, htr, hb⟩

theorem reload_ok {s : ReadData} {p : Nat} {c t : ReadData}
    (h : s.reload p = .ok (c, t)) :
    p ≤ s.rpos ∧ c.fpos = s.fpos + p ∧ c.data.length = s.rpos - p ∧
    t.data = s.data ∧ t.fpos = s.fpos ∧ t.rpos = s.rpos := by
  unfold ReadData.reload at h
  split at h
  · cases h
  · next hnp =>
    obtain ⟨hcd, hcf, hcr, hcl, htd, htf, htr, hmin⟩ := load_ok h
    simp only [] at hcf htd htf htr
    exact ⟨by omega, hcf, hcl, htd, htf, by omega⟩

theorem utf8_ok {s : ReadData} {v : PyString} {t : ReadData}
    (h : s.utf8 = .ok (v, t)) :
    v.data.fpos = s.fpos + s.rpos ∧ v.data.data.length = t.rpos - s.rpos ∧
    t.data = s.data ∧ t.fpos = s.fpos ∧ s.rpos ≤ t.rpos ∧
    t.rpos ≤ s.data.length := by
  unfold ReadData.utf8 at h
  split at h
  · cases h
  · next cnt s1 hcnt =>
    split at h
    · cases h
    · next payload s2 hload =>
      cases h
      obtain ⟨n, hn1, hf, hl, htd1, htf1, htr1, hb1⟩ := leb128u_ok hcnt
      obtain ⟨hcd2, hcf2, hcr2, hl2, htd2, htf2, htr2, hmin2⟩ := load_ok hload
      have hlen1 : s1.data.length = s.data.length := by rw [htd1]
      constructor
      · simpa using hf
      refine ⟨?_, by rw [htd2, htd1], by rw [htf2, htf1], by omega, by omega⟩
      simp only [List.length_append, hl, hl2]
      omega


/-! ### Monotonicity of the operand decoders -/

theorem byte_mono {s : ReadData} {v : Integer} {t : ReadData}
    (h : s.byte = .ok (v, t)) :
    t.data = s.data ∧ t.fpos = s.fpos ∧ s.rpos ≤ t.rpos := by
  obtain ⟨_, _, htd, htf, htr, _⟩ := byte_ok h
  exact ⟨htd, htf, by omega⟩

theorem leb128u_mono {s : ReadData} {v : Integer} {t : ReadData}
    (h : s.leb128u = .ok (v, t)) :
    t.data = s.data ∧ t.fpos = s.fpos ∧ s.rpos ≤ t.rpos := by
  obtain ⟨n, _, _, _, htd, htf, htr, _⟩ := leb128u_ok h
  exact ⟨htd, htf, by omega⟩

theorem opLebU_mono {s t : ReadData} (h : opLebU s = .ok t) :
    t.data = s.data ∧ t.fpos = s.fpos ∧ s.rpos ≤ t.rpos := by
  unfold opLebU at h
  split at h
  · cases h
  · next x s1 heq =>
    cases h
    exact leb128u_mono heq

theorem opLoad_mono {k : Nat} {s t : ReadData} (h : opLoad k s = .ok t) :
    t.data = s.data ∧ t.fpos = s.fpos ∧ s.rpos ≤ t.rpos := by
  unfold opLoad at h
  split at h
  · cases h
  · next x s1 heq =>
    cases h
    obtain ⟨_, _, _, _, htd, htf, htr, _⟩ := load_ok heq
    exact ⟨htd, htf, by omega⟩

theorem opByte_mono {s t : ReadData} (h : opByte s = .ok t) :
    t.data = s.data ∧ t.fpos = s.fpos ∧ s.rpos ≤ t.rpos := by
  unfold opByte at h
  split at h
  · cases h
  · next x s1 heq =>
    cases h
    exact byte_mono heq

theorem opMao_mono {s t : ReadData} (h : opMao s = .ok t) :
    t.data = s.data ∧ t.fpos = s.fpos ∧ s.rpos ≤ t.rpos := by
  unfold opMao at h
  split at h
  · cases h
  · next x s1 heq =>
    split at h
    · cases h
    · next y s2 heq2 =>
      cases h
      obtain ⟨h1, h2, h3⟩ := leb128u_mono heq
      obtain ⟨h4, h5, h6⟩ := leb128u_mono heq2
      exact ⟨by rw [h4, h1], by rw [h5, h2], by omega⟩

theorem opBt_mono {s t : ReadData} (h : opBt s = .ok t) :
    t.data = s.data ∧ t.fpos = s.fpos ∧ s.rpos ≤ t.rpos := by
  unfold opBt at h
  split at h
  · cases h
  · next x s1 heq =>
    cases h
    obtain ⟨n, _, _, _, _, _, htd, htf, htr, _⟩ := leb128_ok heq
    exact ⟨htd, htf, by omega⟩

theorem read_valtype_ok {s : ReadData} {v : String} {t : ReadData}
    (h : read_valtype s = .ok (v, t)) :
    t.data = s.data ∧ t.fpos = s.fpos ∧ t.rpos = s.rpos + 1 := by
  unfold read_valtype at h
  split at h
  · cases h
  · next code s1 heq =>
    cases h
    obtain ⟨_, _, htd, htf, htr, _⟩ := byte_ok heq
    exact ⟨htd, htf, htr⟩

theorem read_reftype_ok {s : ReadData} {v : String} {t : ReadData}
    (h : read_reftype s = .ok (v, t)) :
    t.data = s.data ∧ t.fpos = s.fpos ∧ t.rpos = s.rpos + 1 := by
  unfold read_reftype at h
  split at h
  · cases h
  · next code s1 heq =>
    cases h
    obtain ⟨_, _, htd, htf, htr, _⟩ := byte_ok heq
    exact ⟨htd, htf, htr⟩

theorem readValtypes_mono : ∀ {n : Nat} {s t : ReadData},
    readValtypes n s = .ok t →
    t.data = s.data ∧ t.fpos = s.fpos ∧ s.rpos ≤ t.rpos := by
  intro n
  induction n with
  | zero =>
    intro s t h
    cases h
    exact ⟨rfl, rfl, Nat.le_refl _⟩
  | succ m ih =>
    intro s t h
    unfold readValtypes at h
    split at h
    · cases h
    · next v s1 heq =>
      obtain ⟨h1, h2, h3⟩ := read_valtype_ok heq
      obtain ⟨h4, h5, h6⟩ := ih h
      exact ⟨by rw [h4, h1], by rw [h5, h2], by omega⟩

theorem readLabels_mono : ∀ {n : Nat} {s t : ReadData},
    readLabels n s = .ok t →
    t.data = s.data ∧ t.fpos = s.fpos ∧ s.rpos ≤ t.rpos := by
  intro n
  induction n with
  | zero =>
    intro s t h
    cases h
    exact ⟨rfl, rfl, Nat.le_refl _⟩
  | succ m ih =>
    intro s t h
    unfold readLabels at h
    split at h
    · cases h
    · next v s1 heq =>
      obtain ⟨h1, h2, h3⟩ := leb128u_mono heq
      obtain ⟨h4, h5, h6⟩ := ih h
      exact ⟨by rw [h4, h1], by rw [h5, h2], by omega⟩

theorem opTplus_mono {s t : ReadData} (h : opTplus s = .ok t) :
    t.data = s.data ∧ t.fpos = s.fpos ∧ s.rpos ≤ t.rpos := by
  unfold opTplus at h
  split at h
  · cases h
  · next cnt s1 heq =>
    obtain ⟨h1, h2, h3⟩ := leb128u_mono heq
    obtain ⟨h4, h5, h6⟩ := readValtypes_mono h
    exact ⟨by rw [h4, h1], by rw [h5, h2], by omega⟩

theorem opLidplus_mono {s t : ReadData} (h : opLidplus s = .ok t) :
    t.data = s.data ∧ t.fpos = s.fpos ∧ s.rpos ≤ t.rpos := by
  unfold opLidplus at h
  split at h
  · cases h
  · next cnt s1 heq =>
    obtain ⟨h1, h2, h3⟩ := leb128u_mono heq
    obtain ⟨h4, h5, h6⟩ := readLabels_mono h
    exact ⟨by rw [h4, h1], by rw [h5, h2], by omega⟩

theorem opRef_mono {s t : ReadData} (h : opRef s = .ok t) :
    t.data = s.data ∧ t.fpos = s.fpos ∧ s.rpos ≤ t.rpos := by
  unfold opRef at h
  split at h
  · cases h
  · next x s1 heq =>
    cases h
    obtain ⟨h1, h2, h3⟩ := read_reftype_ok heq
    exact ⟨h1, h2, by omega⟩

theorem opLit_mono {n : Nat} {s t : ReadData} (h : opLit n s = .ok t) :
    t.data = s.data ∧ t.fpos = s.fpos ∧ s.rpos ≤ t.rpos := by
  unfold opLit at h
  split at h
  · cases h
  · next sfx s1 heq =>
    split at h
    · cases h
      exact byte_mono heq
    · cases h

theorem readOperand_mono {m : String} {op : PyVal} {s t : ReadData}
    (h : readOperand m s op = .ok t) :
    t.data = s.data ∧ t.fpos = s.fpos ∧ s.rpos ≤ t.rpos := by
  unfold readOperand at h
  split at h
  · exact opLit_mono h
  · split at h
    · exact opLebU_mono h
    · split at h
      · exact opLoad_mono h
      · split at h
        · exact opLoad_mono h
        · split at h
          · exact opLoad_mono h
          · split at h
            · exact opByte_mono h
            · split at h
              · exact opMao_mono h
              · split at h
                · exact opBt_mono h
                · split at h
                  · exact opTplus_mono h
                  · split at h
                    · exact opLidplus_mono h
                    · split at h
                      · exact opRef_mono h
                      · cases h

theorem foldl_readOperand_mono : ∀ {ops : List PyVal} {m : String} {s t : ReadData},
    List.foldlM (readOperand m) s ops = .ok t →
    t.data = s.data ∧ t.fpos = s.fpos ∧ s.rpos ≤ t.rpos := by
  intro ops
  induction ops with
  | nil =>
    intro m s t h
    cases h
    exact ⟨rfl, rfl, Nat.le_refl _⟩
  | cons o os ih =>
    intro m s t h
    simp only [List.foldlM] at h
    cases hro : readOperand m s o with
    | error e =>
      rw [hro] at h
      cases h
    | ok s1 =>
      rw [hro] at h
      simp only [bind, Except.bind] at h
      obtain ⟨h1, h2, h3⟩ := readOperand_mono hro
      obtain ⟨h4, h5, h6⟩ := ih h
      exact ⟨by rw [h4, h1], by rw [h5, h2], by omega⟩

theorem resolvePlane_mono {code1 : Nat} {slot0 : Slot} {s1 : ReadData}
    {ins : Slot} {s2 : ReadData}
    (h : resolvePlane code1 slot0 s1 = .ok (ins, s2)) :
    s2.data = s1.data ∧ s2.fpos = s1.fpos ∧ s1.rpos ≤ s2.rpos := by
  unfold resolvePlane at h
  split at h
  · split at h
    · cases h
    · next scode2 s3 heq =>
      split at h
      · next t2 =>
        split at h
        · cases h
        · cases h
          exact leb128u_mono heq
      · cases h
  · cases h
    exact ⟨rfl, rfl, Nat.le_refl _⟩

/-- Every successfully decoded instruction leaves the buffer and base
offset unchanged and advances the read position past the opcode byte. -/
theorem instruction_advance {s : ReadData} {a : String} {t : ReadData}
    (h : instruction s = .ok (a, t)) :
    t.data = s.data ∧ t.fpos = s.fpos ∧ s.rpos + 1 ≤ t.rpos := by
  unfold instruction at h
  split at h
  · cases h
  · next scode1 s1 hbyte =>
    split at h
    · cases h
    · next slot0 hslot =>
      split at h
      · cases h
      · next ins s2 hres =>
        split at h
        · cases h
        · next dat s3 hreload =>
          split at h
          · cases h
          · cases h
          · next ops asm =>
            split at h
            · cases h
            · next mnem hmnem =>
              split at h
              · cases h
              · next s4 hfold =>
                cases h
                obtain ⟨_, _, h1d, h1f, h1r, _⟩ := byte_ok hbyte
                obtain ⟨h2d, h2f, h2r⟩ := resolvePlane_mono hres
                obtain ⟨_, _, _, h3d, h3f, h3r⟩ := reload_ok hreload
                obtain ⟨h4d, h4f, h4r⟩ := foldl_readOperand_mono hfold
                refine ⟨?_, ?_, ?_⟩
                · rw [h4d, h3d, h2d, h1d]
                · rw [h4f, h3f, h2f, h1f]
                · omega

/-! ### The recursive expression walker -/

/-- A `remain`-decrease fact packaged for the termination proof of the
walker. -/
theorem instruction_remain_lt {s : ReadData} {a : String} {t : ReadData}
    (h : instruction s = .ok (a, t)) (h0 : s.remain ≠ 0) :
    t.remain < s.remain := by
  obtain ⟨hd, hf, hr⟩ := instruction_advance h
  unfold ReadData.remain at h0 ⊢
  rw [hd]
  omega

/-- `expression` (source lines 895-901): loop while bytes remain, decode
one instruction, stop after `end`, recurse after `block`/`loop`/`if`.
The result carries the walker invariant (same buffer and base offset,
non-decreasing read position) so that the nested recursive call of the
`block`/`loop`/`if` arm is visibly decreasing. -/
def expressionAux (s : ReadData) :
    Except Err {t : ReadData // t.data = s.data ∧ t.fpos = s.fpos ∧ s.rpos ≤ t.rpos} :=
  if h0 : s.remain = 0 then .ok ⟨s, rfl, rfl, Nat.le_refl _⟩
  else
    match hi : instruction s with
    | .error e => .error e
    | .ok (asm, s1) =>
      if asm = "end" then
        .ok ⟨s1, (instruction_advance hi).1, (instruction_advance hi).2.1,
          Nat.le_of_lt (by have := (instruction_advance hi).2.2; omega)⟩
      else if asm = "block" ∨ asm = "loop" ∨ asm = "if" then
        match expressionAux s1 with
        | .error e => .error e
        | .ok ⟨s2, h2d, h2f, h2r⟩ =>
          match expressionAux s2 with
          | .error e => .error e
          | .ok ⟨s3, h3d, h3f, h3r⟩ =>
            .ok ⟨s3, by rw [h3d, h2d, (instruction_advance hi).1],
              by rw [h3f, h2f, (instruction_advance hi).2.1],
              by have := (instruction_advance hi).2.2; omega⟩
      else
        match expressionAux s1 with
        | .error e => .error e
        | .ok ⟨s2, h2d, h2f, h2r⟩ =>
          .ok ⟨s2, by rw [h2d, (instruction_advance hi).1],
            by rw [h2f, (instruction_advance hi).2.1],
            by have := (instruction_advance hi).2.2; omega⟩
termination_by s.remain
decreasing_by
  · exact instruction_remain_lt hi h0
  · have h1 := instruction_remain_lt hi h0
    unfold ReadData.remain at h1 ⊢
    have hlen1 : s1.data.length = s.data.length := by
      rw [(instruction_advance hi).1]
    have hlen2 : s2.data.length = s.data.length := by
      rw [h2d, (instruction_advance hi).1]
    omega
  · exact instruction_remain_lt hi h0

/-- `expression`, forgetting the packaged invariant. -/
def expression (s : ReadData) : Except Err ReadData :=
  match expressionAux s with
  | .error e => .error e
  | .ok t => .ok t.val

/-! ### Section decoders used by the claims -/

/-- `section_remain` (source lines 906-910): `load` exactly the remaining
bytes (always succeeds) and report them; only the cursor state matters
here. -/
def sectionRemain (s : ReadData) : ReadData :=
  (s.read s.remain).2

/-- Source line 1073 compares `kind != 0` where `kind` is an `Integer`
*object* and `0` an `int`.  `Integer` defines no `__eq__`, so Python
falls back to identity comparison and the inequality is true for every
decoded byte — including `0`. -/
def integerNeInt (_kind : Integer) (_n : Nat) : Bool :=
  true

/-- The expression-list loop of the element section (source lines
1067-1069). -/
def elemExprs : Nat → ReadData → Except Err ReadData
  | 0, s => .ok s
  | n + 1, s =>
    match expression s with
    | .error e => .error e
    | .ok s1 => elemExprs n s1

/-- The funcidx-list loop of the element section (source lines
1079-1081). -/
def elemFuncidxs : Nat → ReadData → Except Err ReadData
  | 0, s => .ok s
  | n + 1, s =>
    match s.leb128u with
    | .error e => .error e
    | .ok (_, s1) => elemFuncidxs n s1

/-- One entry of the element section (source lines 1048-1081): mode byte,
optional tableidx, optional offset expression, then either the
expression form (bit 2 set: optional reftype via `read_valtype`, count,
expressions) or the kind form (elemkind byte checked by the buggy
`kind != 0`, count, funcidx list). -/
def elementEntry (s : ReadData) : Except Err ReadData := do
  let (code, s) ← s.byte
  let mode := code.value
  if mode ≥ 8 then .error .unknownElement
  else do
    let s ← if mode = 2 ∨ mode = 6 then do
        let (_tabidx, s') ← s.leb128u
        pure s'
      else pure s
    let s ← if mode &&& 1 = 0 then expression s else pure s
    if mode &&& 4 ≠ 0 then do
      let s ← if mode &&& 3 ≠ 0 then do
          let (_cvt, s') ← read_valtype s
          pure s'
        else pure s
      let (exprs, s) ← s.leb128u
      elemExprs exprs.value s
    else do
      let s ← if mode &&& 3 ≠ 0 then do
          let (kind, s') ← s.byte
          if integerNeInt kind 0 then
            .error .unknownElemkind
          else
            -- dead: would annotate the elemkind as funcref
            pure s'
        else pure s
      let (exprs, s) ← s.leb128u
      elemFuncidxs exprs.value s

/-- The entry loop of the element section. -/
def elemEntries : Nat → ReadData → Except Err ReadData
  | 0, s => .ok s
  | n + 1, s =>
    match elementEntry s with
    | .error e => .error e
    | .ok s1 => elemEntries n s1

/-- `element_section` (source lines 1043-1082). -/
def element_section (s : ReadData) : Except Err ReadData := do
  let (vsiz, s) ← s.leb128u
  let s ← elemEntries vsiz.value s
  pure (sectionRemain s)

/-- One entry of the data section (source lines 1113-1127): LEB128u mode;
mode ≥ 3 raises; mode 2 reads an explicit memidx but then evaluates
`memidx.code` for printing — `Integer` has no attribute `code`, an
`AttributeError`; modes 0 and 2 read an offset expression; finally the
length-prefixed init bytes. -/
def dataEntry (s : ReadData) : Except Err ReadData := do
  let (code, s) ← s.leb128u
  let mode := code.value
  if mode ≥ 3 then .error .unknownDataMode
  else do
    let s ← if mode = 2 then do
        let (_memidx, _s') ← s.leb128u
        .error .attributeError
      else pure s
    let s ← if mode = 0 ∨ mode = 2 then expression s else pure s
    let (bsz, s) ← s.leb128u
    let (_bdt, s) ← s.load bsz.value
    pure s

/-- The entry loop of the data section. -/
def dataEntries : Nat → ReadData → Except Err ReadData
  | 0, s => .ok s
  | n + 1, s =>
    match dataEntry s with
    | .error e => .error e
    | .ok s1 => dataEntries n s1

/-- `data_section` (source lines 1108-1128). -/
def data_section (s : ReadData) : Except Err ReadData := do
  let (vsiz, s) ← s.leb128u
  let s ← dataEntries vsiz.value s
  pure (sectionRemain s)

/-- `FILE_MAGIC`. -/
def FILE_MAGIC : List Nat := [0x00, 0x61, 0x73, 0x6D]

/-- The header phase of `main` (source lines 1198-1204): `read(4)` for the
magic (a mismatch raises `ValueError`), then `long()` for the 4-byte
little-endian version. -/
def readHeader (file : ReadData) : Except Err (Integer × ReadData) :=
  match file.read 4 with
  | (magic, file) =>
    if magic.data ≠ FILE_MAGIC then .error .valueError
    else file.long

/-! ### Arithmetic facts about the LEB128 decoders -/

theorem enumFrom_shift_sum : ∀ (bs : List Nat) (k : Nat),
    ((List.enumFrom (k + 1) bs).map (fun p => (p.2 &&& 0x7f) <<< (p.1 * 7))).sum =
      128 * ((List.enumFrom k bs).map (fun p => (p.2 &&& 0x7f) <<< (p.1 * 7))).sum := by
  intro bs
  induction bs with
  | nil => intro k; simp
  | cons b rest ih =>
    intro k
    simp only [List.enumFrom, List.map_cons, List.sum_cons, ih (k + 1), Nat.mul_add]
    congr 1
    simp only [Nat.shiftLeft_eq]
    have h7 : (k + 1) * 7 = k * 7 + 7 := by ring
    rw [h7, pow_add]
    ring

theorem decode_leb128u_cons (b : Nat) (bs : List Nat) :
    decode_leb128u (b :: bs) = (b &&& 0x7f) + 128 * decode_leb128u bs := by
  unfold decode_leb128u
  simp only [List.enum, List.enumFrom, List.map_cons, List.sum_cons, enumFrom_shift_sum]
  simp [Nat.shiftLeft_eq]

theorem decode_leb128u_eq_sum : ∀ bs : List Nat,
    decode_leb128u bs =
      ∑ i in Finset.range bs.length, (bs.getD i 0 &&& 0x7f) * 2 ^ (7 * i) := by
  intro bs
  induction bs with
  | nil => simp [decode_leb128u]
  | cons b rest ih =>
    rw [decode_leb128u_cons, ih, List.length_cons, Finset.sum_range_succ']
    simp only [List.getD_cons_succ, List.getD_cons_zero, Nat.mul_zero, pow_zero, mul_one]
    have hcongr : ∀ i ∈ Finset.range rest.length,
        (rest.getD i 0 &&& 0x7f) * 2 ^ (7 * (i + 1)) =
          128 * ((rest.getD i 0 &&& 0x7f) * 2 ^ (7 * i)) := by
      intro i hi
      have h7 : 7 * (i + 1) = 7 * i + 7 := by ring
      rw [h7, pow_add]
      ring
    rw [Finset.sum_congr rfl hcongr, ← Finset.mul_sum]
    omega

theorem decode_leb128u_allFF : ∀ bs : List Nat,
    bs.getLast? = some 0x7F → (∀ b ∈ bs.dropLast, b = 0xFF) →
    decode_leb128u bs = 2 ^ (7 * bs.length) - 1 := by
  intro bs
  induction bs with
  | nil => intro h _; cases h
  | cons b rest ih =>
    intro hlast hff
    cases rest with
    | nil =>
      simp only [List.getLast?_singleton, Option.some.injEq] at hlast
      subst hlast
      decide
    | cons c rest2 =>
      have hb : b = 0xFF := by
        apply hff
        simp [List.dropLast]
      have hlast2 : (c :: rest2).getLast? = some 0x7F := by
        rw [← hlast]
        rfl
      have hff2 : ∀ x ∈ (c :: rest2).dropLast, x = 0xFF := by
        intro x hx
        apply hff
        simp only [List.dropLast_cons_of_ne_nil (List.cons_ne_nil c rest2)]
        exact List.mem_cons_of_mem b hx
      have hrec := ih hlast2 hff2
      rw [decode_leb128u_cons, hb, hrec]
      have h1 : (1 : Nat) ≤ 2 ^ (7 * (c :: rest2).length) := Nat.one_le_two_pow
      have h7 : 7 * ((c :: rest2).length + 1) = 7 * (c :: rest2).length + 7 := by ring
      simp only [List.length_cons] at h1 ⊢
      have h7b : 7 * (rest2.length + 1 + 1) = 7 * (rest2.length + 1) + 7 := by ring
      rw [h7b, pow_add]
      have : (0xFF : Nat) &&& 0x7f = 127 := by decide
      rw [this]
      omega

theorem getLastD_of_getLast? {bs : List Nat} {v : Nat}
    (h : bs.getLast? = some v) : bs.getLastD 0 = v := by
  cases bs with
  | nil => cases h
  | cons b rest =>
    rw [List.getLastD_eq_getLast?, h]
    rfl

/-! ### Behaviour of the type-decoding sites on unknown codes -/

theorem byte_cons (c : Nat) (rest : List Nat) (fp : Nat) :
    ReadData.byte ⟨c :: rest, fp, 0⟩ = .ok (⟨c, ⟨[c], fp, 0⟩⟩, ⟨c :: rest, fp, 1⟩) := by
  unfold ReadData.byte ReadData.load ReadData.read
  simp

theorem value_type_unknown {c : Nat} (rest : List Nat) (fp : Nat)
    (h : VALTYPE c = none) :
    value_type ⟨c :: rest, fp, 0⟩ = .error .unknownValtype := by
  unfold value_type
  rw [byte_cons]
  simp only [h]

theorem read_valtype_total (c : Nat) (rest : List Nat) (fp : Nat) :
    read_valtype ⟨c :: rest, fp, 0⟩ = .ok (get_valtype c, ⟨c :: rest, fp, 1⟩) := by
  unfold read_valtype
  rw [byte_cons]

theorem leb128u_cons {c : Nat} (rest : List Nat) (fp : Nat)
    (h : c &&& 0x80 = 0) :
    ReadData.leb128u ⟨c :: rest, fp, 0⟩ =
      .ok (⟨c &&& 0x7f, ⟨[c], fp, 0⟩⟩, ⟨c :: rest, fp, 1⟩) := by
  unfold ReadData.leb128u ReadData.leb128
  have hl : lebLen ((⟨c :: rest, fp, 0⟩ : ReadData).data.drop 0) = some 1 := by
    show lebLen (List.drop 0 (c :: rest)) = some 1
    rw [List.drop_zero]
    unfold lebLen
    simp [h]
  rw [hl]
  have hv : decode_leb128u [c] = c &&& 0x7f := by
    rw [decode_leb128u_cons]
    simp [decode_leb128u]
  unfold ReadData.read
  simp [hv]

theorem reference_type_unknown {c : Nat} (rest : List Nat) (fp : Nat)
    (h80 : c &&& 0x80 = 0) (h : REFTYPE (c &&& 0x7f) = none) :
    reference_type ⟨c :: rest, fp, 0⟩ = .error .unknownReftype := by
  unfold reference_type
  rw [leb128u_cons rest fp h80]
  simp only [h]

theorem instruction_select_tplus (b : Nat) :
    instruction ⟨[0x1C, 0x01, b], 0, 0⟩ =
      .ok ("select", ⟨[0x1C, 0x01, b], 0, 3⟩) := rfl

theorem read_reftype_total (c : Nat) (rest : List Nat) (fp : Nat) :
    read_reftype ⟨c :: rest, fp, 0⟩ = .ok (get_reftype c, ⟨c :: rest, fp, 1⟩) := by
  unfold read_reftype
  rw [byte_cons]

theorem instruction_refnull (b : Nat) :
    instruction ⟨[0xD0, b], 0, 0⟩ =
      .ok ("ref.null", ⟨[0xD0, b], 0, 2⟩) := rfl

theorem instruction_block_bt (c : Nat) (h : c &&& 0x80 = 0) :
    instruction ⟨[0x02, c], 0, 0⟩ = .ok ("block", ⟨[0x02, c], 0, 2⟩) := by
  have hleb : ReadData.leb128 ⟨[0x02, c], 0, 1⟩ =
      .ok (⟨[c], 1, 0⟩, ⟨[0x02, c], 0, 2⟩) := by
    unfold ReadData.leb128
    have hl : lebLen ((⟨[0x02, c], 0, 1⟩ : ReadData).data.drop
        (⟨[0x02, c], 0, 1⟩ : ReadData).rpos) = some 1 := by
      show lebLen (List.drop 1 [0x02, c]) = some 1
      unfold lebLen
      simp [h]
    rw [hl]
    rfl
  have hob : opBt ⟨[0x02, c], 0, 1⟩ = .ok ⟨[0x02, c], 0, 2⟩ := by
    unfold opBt
    rw [hleb]
  have hro : readOperand "block" ⟨[0x02, c], 0, 1⟩ (.s "bt") =
      .ok ⟨[0x02, c], 0, 2⟩ := hob
  have hfold : List.foldlM (readOperand "block") ⟨[0x02, c], 0, 1⟩ [PyVal.s "bt"] =
      .ok ⟨[0x02, c], 0, 2⟩ := by
    simp only [List.foldlM]
    rw [hro]
    rfl
  show (match List.foldlM (readOperand "block") ⟨[0x02, c], 0, 1⟩ [PyVal.s "bt"] with
        | .error e => Except.error e
        | .ok s4 => Except.ok ("block", s4)) = .ok ("block", ⟨[0x02, c], 0, 2⟩)
  rw [hfold]


end WD

open WD

/-! ## The claims -/

/-- Claim C1 (code bug): the claim says a `vb16`/`vlt` operand makes the
decoder read 16 raw bytes and emit them without error; in the code,
line 843 compares the operand string against the tuple
`('vb16', 'vlt')`, which is always false, so `v128.const` (plane C 0x0C)
and `i8x16.shuffle` (plane C 0x0D) instead fall through to the raise of
line 890 without reading any of the 16 bytes. -/
theorem C1_vb16_vlt_operand_raises :
    instruction ⟨[0xFD, 0x0C, 0, 0, 0, 0, 0, 0, 0, 0, 0, 0, 0, 0, 0, 0, 0, 0], 0, 0⟩ =
      .error (.unhandledOperand "v128.const" "vb16") ∧
    instruction ⟨[0xFD, 0x0D, 1, 2, 3, 4, 5, 6, 7, 8, 9, 10, 11, 12, 13, 14, 15, 16], 0, 0⟩ =
      .error (.unhandledOperand "i8x16.shuffle" "vlt") :=
  ⟨rfl, rfl⟩

/-- Claim C2 (code bug): the claim says an elemkind byte equal to 0 is
accepted as funcref; in the code, line 1073 compares the `Integer`
object `kind` against the int `0` without `int(...)`, which is always
unequal, so even elemkind byte `0x00` raises `unknown elemkind: 0`
(element section with count 1, mode 1, elemkind 0). -/
theorem C2_elemkind_zero_raises :
    element_section ⟨[0x01, 0x01, 0x00], 0, 0⟩ = .error .unknownElemkind :=
  rfl

/-- Claim C3 (code bug): mode ≥ 3 does fail with the unknown-data-mode
error, but a mode-2 entry does not proceed past the memidx: line 1121
evaluates `memidx.code`, an attribute `Integer` does not have, raising
`AttributeError` (data section with count 1, mode 2, memidx 0). -/
theorem C3_data_mode2_attribute_error :
    data_section ⟨[0x01, 0x02, 0x00], 0, 0⟩ = .error .attributeError ∧
    data_section ⟨[0x01, 0x03], 0, 0⟩ = .error .unknownDataMode :=
  ⟨rfl, rfl⟩

/-- Claim C4 counterexample: byte `0x00` is outside the value-type table,
yet the `t+` operand of `select` decodes it without failing — the dump
annotates a placeholder and returns normally, refuting the claim that
every listed site fails with an unknown-valtype error. -/
theorem C4_counterexample :
    VALTYPE 0x00 = none ∧
    instruction ⟨[0x1C, 0x01, 0x00], 0, 0⟩ =
      .ok ("select", ⟨[0x1C, 0x01, 0x00], 0, 3⟩) :=
  ⟨rfl, rfl⟩

/-- Claim C4 (amended): an out-of-table code fails with `UnknownValType`
at the `value_type` sites (function-type parameter and result lists,
globals, import globals) and with `UnknownRefType` at the
`reference_type` sites (import tables, table section); but at the
`read_valtype` sites — the `t+` operand of `select`, code-section local
declarations, element-section expression-form types — at block types,
and at `ref.null`, the unknown code is rendered as a
`(valtype:0xNN)`/`(reftype:0xNN)` placeholder and decoding continues
without error.  The conjuncts: `value_type` failure, `reference_type`
failure, `read_valtype` totality, the `get_valtype` placeholder, the
`get_reftype` placeholder, `read_reftype` totality, the `select t+`
instruction site, the `ref.null` instruction site, and the block-type
(`bt`) instruction site for every one-byte block-type code (in
particular unknown value types with bit 6 set). -/
theorem C4_unknown_type_codes :
    (∀ (c : Nat) (rest : List Nat) (fp : Nat), VALTYPE c = none →
      value_type ⟨c :: rest, fp, 0⟩ = .error .unknownValtype) ∧
    (∀ (c : Nat) (rest : List Nat) (fp : Nat),
      c &&& 0x80 = 0 → REFTYPE (c &&& 0x7f) = none →
      reference_type ⟨c :: rest, fp, 0⟩ = .error .unknownReftype) ∧
    (∀ (c : Nat) (rest : List Nat) (fp : Nat),
      read_valtype ⟨c :: rest, fp, 0⟩ = .ok (get_valtype c, ⟨c :: rest, fp, 1⟩)) ∧
    (∀ c : Nat, VALTYPE c = none → get_valtype c = "(valtype:0x" ++ hex2 c ++ ")") ∧
    (∀ c : Nat, REFTYPE c = none → get_reftype c = "(reftype:0x" ++ hex2 c ++ ")") ∧
    (∀ (c : Nat) (rest : List Nat) (fp : Nat),
      read_reftype ⟨c :: rest, fp, 0⟩ = .ok (get_reftype c, ⟨c :: rest, fp, 1⟩)) ∧
    (∀ b : Nat, instruction ⟨[0x1C, 0x01, b], 0, 0⟩ =
      .ok ("select", ⟨[0x1C, 0x01, b], 0, 3⟩)) ∧
    (∀ b : Nat, instruction ⟨[0xD0, b], 0, 0⟩ =
      .ok ("ref.null", ⟨[0xD0, b], 0, 2⟩)) ∧
    (∀ c : Nat, c &&& 0x80 = 0 →
      instruction ⟨[0x02, c], 0, 0⟩ = .ok ("block", ⟨[0x02, c], 0, 2⟩)) := by
  refine ⟨?_, ?_, ?_, ?_, ?_, read_reftype_total, instruction_select_tplus,
    instruction_refnull, instruction_block_bt⟩
  · intro c rest fp h
    exact value_type_unknown rest fp h
  · intro c rest fp h80 h
    exact reference_type_unknown rest fp h80 h
  · intro c rest fp
    exact read_valtype_total c rest fp
  · intro c h
    unfold get_valtype
    rw [h]
  · intro c h
    unfold get_reftype
    rw [h]

/-- Witness for C4: the amended theorem applied at unknown codes — `0x00`
at the `value_type`/`reference_type`/`read_valtype`/`read_reftype`
sites, `ref.null` with reftype byte `0x00`, and a `block` whose
block-type byte `0x7A` has bit 6 set but is no value type. -/
theorem C4_unknown_type_codes_witness :
    value_type ⟨[0x00], 7, 0⟩ = .error .unknownValtype ∧
    reference_type ⟨[0x00], 7, 0⟩ = .error .unknownReftype ∧
    read_valtype ⟨[0x00], 7, 0⟩ = .ok (get_valtype 0x00, ⟨[0x00], 7, 1⟩) ∧
    read_reftype ⟨[0x00], 7, 0⟩ = .ok (get_reftype 0x00, ⟨[0x00], 7, 1⟩) ∧
    instruction ⟨[0xD0, 0x00], 0, 0⟩ = .ok ("ref.null", ⟨[0xD0, 0x00], 0, 2⟩) ∧
    instruction ⟨[0x02, 0x7A], 0, 0⟩ = .ok ("block", ⟨[0x02, 0x7A], 0, 2⟩) := by
  refine ⟨?_, ?_, ?_, ?_, ?_, ?_⟩
  · exact C4_unknown_type_codes.1 0x00 [] 7 (by decide)
  · exact C4_unknown_type_codes.2.1 0x00 [] 7 (by decide) (by decide)
  · exact C4_unknown_type_codes.2.2.1 0x00 [] 7
  · exact C4_unknown_type_codes.2.2.2.2.2.1 0x00 [] 7
  · exact C4_unknown_type_codes.2.2.2.2.2.2.2.1 0x00
  · exact C4_unknown_type_codes.2.2.2.2.2.2.2.2 0x7A (by decide)

/-- Claim C5 counterexample: `reload` (the spec's `rewind_and_require`)
succeeds on a cursor rewound to saved position 0 from read position 2,
but the returned Span's offset is base + saved position (10), not
base + pre-call position (10 + 2), and its length (2) is not the number
of positions the cursor advanced (2 - 2 = 0). -/
theorem C5_counterexample :
    ReadData.reload ⟨[1, 2, 3], 10, 2⟩ 0 =
      .ok (⟨[1, 2], 10, 0⟩, ⟨[1, 2, 3], 10, 2⟩) ∧
    ¬((10 : Nat) = 10 + 2) ∧ ¬(([1, 2] : List Nat).length = 2 - 2) :=
  ⟨rfl, by decide, by decide⟩

/-- Claim C5 (amended): for every successful `read`, `load`, `byte`,
`long`, `leb128`, `leb128u`, `leb128s` and `utf8`, the returned Span's
offset is the base offset plus the pre-call read position and its length
is the number of positions advanced, and the post-call read position
stays within the buffer; for `reload` the Span instead covers
`[saved_pos, pre_call_pos)` and the cursor ends where it began. -/
theorem C5_span_invariants (s : ReadData) (n p : Nat)
    (h : s.rpos ≤ s.data.length) :
    ((s.read n).1.fpos = s.fpos + s.rpos ∧
      (s.read n).1.data.length = (s.read n).2.rpos - s.rpos ∧
      (s.read n).2.rpos ≤ s.data.length) ∧
    (∀ c t, s.load n = .ok (c, t) →
      c.fpos = s.fpos + s.rpos ∧ c.data.length = t.rpos - s.rpos ∧
      t.rpos ≤ s.data.length) ∧
    (∀ v t, s.byte = .ok (v, t) →
      v.data.fpos = s.fpos + s.rpos ∧ v.data.data.length = t.rpos - s.rpos ∧
      t.rpos ≤ s.data.length) ∧
    (∀ v t, s.long = .ok (v, t) →
      v.data.fpos = s.fpos + s.rpos ∧ v.data.data.length = t.rpos - s.rpos ∧
      t.rpos ≤ s.data.length) ∧
    (∀ c t, s.leb128 = .ok (c, t) →
      c.fpos = s.fpos + s.rpos ∧ c.data.length = t.rpos - s.rpos ∧
      t.rpos ≤ s.data.length) ∧
    (∀ v t, s.leb128u = .ok (v, t) →
      v.data.fpos = s.fpos + s.rpos ∧ v.data.data.length = t.rpos - s.rpos ∧
      t.rpos ≤ s.data.length) ∧
    (∀ x c t, s.leb128s = .ok (x, c, t) →
      c.fpos = s.fpos + s.rpos ∧ c.data.length = t.rpos - s.rpos ∧
      t.rpos ≤ s.data.length) ∧
    (∀ v t, s.utf8 = .ok (v, t) →
      v.data.fpos = s.fpos + s.rpos ∧ v.data.data.length = t.rpos - s.rpos ∧
      t.rpos ≤ s.data.length) ∧
    (∀ c t, s.reload p = .ok (c, t) →
      c.fpos = s.fpos + p ∧ c.data.length = s.rpos - p ∧ t.rpos = s.rpos ∧
      t.rpos ≤ s.data.length) := by
  refine ⟨?_, ?_, ?_, ?_, ?_, ?_, ?_, ?_, ?_⟩
  · have hc := read_chunk_len s n
    have h2 : (s.read n).2.rpos = s.rpos + (s.read n).1.data.length := rfl
    exact ⟨rfl, by omega, by omega⟩
  · intro c t hl
    obtain ⟨_, hcf, _, hcl, _, _, htr, hmin⟩ := load_ok hl
    exact ⟨hcf, by omega, by omega⟩
  · intro v t hb
    obtain ⟨hvf, hvl, _, _, htr, hb2⟩ := byte_ok hb
    exact ⟨hvf, by omega, by omega⟩
  · intro v t hl
    obtain ⟨hvf, hvl, _, _, htr, hb2⟩ := long_ok hl
    exact ⟨hvf, by omega, by omega⟩
  · intro c t hl
    obtain ⟨m, _, _, _, hcf, hcl, _, _, htr, hb2⟩ := leb128_ok hl
    exact ⟨hcf, by omega, by omega⟩
  · intro v t hl
    obtain ⟨m, _, hvf, hvl, _, _, htr, hb2⟩ := leb128u_ok hl
    exact ⟨hvf, by omega, by omega⟩
  · intro x c t hl
    unfold ReadData.leb128s at hl
    split at hl
    · cases hl
    · next d s1 heq =>
      cases hl
      obtain ⟨m, _, _, _, hcf, hcl, _, _, htr, hb2⟩ := leb128_ok heq
      exact ⟨hcf, by omega, by omega⟩
  · intro v t hu
    obtain ⟨hvf, hvl, _, _, hle, hb2⟩ := utf8_ok hu
    exact ⟨hvf, hvl, hb2⟩
  · intro c t hr
    obtain ⟨hple, hcf, hcl, _, _, htr⟩ := reload_ok hr
    exact ⟨hcf, hcl, htr, by omega⟩

/-- Witness for C5: the amended theorem applied to a concrete cursor and
a concrete successful `load`. -/
theorem C5_span_invariants_witness :
    (ReadData.read ⟨[5, 6, 7], 3, 0⟩ 2).1.fpos = 3 + 0 ∧
    (⟨[5, 6], 3, 0⟩ : ReadData).fpos = 3 + 0 := by
  have H := C5_span_invariants ⟨[5, 6, 7], 3, 0⟩ 2 0 (by decide)
  exact ⟨H.1.1, (H.2.1 ⟨[5, 6], 3, 0⟩ ⟨[5, 6, 7], 3, 2⟩ rfl).1⟩

/-- Claim C6: for a LEB128 byte group (all bytes but the last carry the
continuation bit, the last does not), the unsigned decode is
`Σ (b_i & 0x7F) << 7i` with no width cap, and the signed decode
subtracts `1 << 7n` exactly when bit 6 of the last byte is set. -/
theorem C6_leb128_decode (bs : List Nat) (hne : bs ≠ [])
    (hmid : ∀ b ∈ bs.dropLast, b &&& 0x80 ≠ 0)
    (hlast : bs.getLastD 0 &&& 0x80 = 0) :
    decode_leb128u bs =
      ∑ i in Finset.range bs.length, (bs.getD i 0 &&& 0x7f) * 2 ^ (7 * i) ∧
    decode_leb128s bs =
      (if bs.getLastD 0 &&& 0x40 ≠ 0 then
        ((∑ i in Finset.range bs.length,
            (bs.getD i 0 &&& 0x7f) * 2 ^ (7 * i) : Nat) : Int) -
          2 ^ (7 * bs.length)
      else
        ((∑ i in Finset.range bs.length,
            (bs.getD i 0 &&& 0x7f) * 2 ^ (7 * i) : Nat) : Int)) := by
  refine ⟨decode_leb128u_eq_sum bs, ?_⟩
  unfold decode_leb128s
  have hsh : ((1 <<< (bs.length * 7) : Nat) : Int) = 2 ^ (7 * bs.length) := by
    rw [Nat.shiftLeft_eq, one_mul, Nat.mul_comm]
    push_cast
    rfl
  by_cases hc : bs.getLastD 0 &&& 0x40 ≠ 0
  · rw [if_pos hc, if_pos hc, decode_leb128u_eq_sum, hsh]
  · rw [if_neg hc, if_neg hc, decode_leb128u_eq_sum]

/-- Witness for C6: the theorem applied to the one-byte group `0x7F`. -/
theorem C6_leb128_decode_witness :
    decode_leb128u [0x7F] =
      ∑ i in Finset.range ([0x7F] : List Nat).length,
        (([0x7F] : List Nat).getD i 0 &&& 0x7f) * 2 ^ (7 * i) ∧
    decode_leb128s [0x7F] =
      (if ([0x7F] : List Nat).getLastD 0 &&& 0x40 ≠ 0 then
        ((∑ i in Finset.range ([0x7F] : List Nat).length,
            (([0x7F] : List Nat).getD i 0 &&& 0x7f) * 2 ^ (7 * i) : Nat) : Int) -
          2 ^ (7 * ([0x7F] : List Nat).length)
      else
        ((∑ i in Finset.range ([0x7F] : List Nat).length,
            (([0x7F] : List Nat).getD i 0 &&& 0x7f) * 2 ^ (7 * i) : Nat) : Int)) :=
  C6_leb128_decode [0x7F] (by decide) (by decide) (by decide)

/-- Claim C7 counterexample: `80 7F` is a well-formed LEB128 group ending
in `0x7F`, yet it decodes signed to `-128`, not `-1`. -/
theorem C7_counterexample :
    (0x80 : Nat) &&& 0x80 ≠ 0 ∧ (0x7F : Nat) &&& 0x80 = 0 ∧
    decode_leb128s [0x80, 0x7F] = -128 ∧ ((-128 : Int) ≠ -1) := by
  refine ⟨by decide, by decide, ?_, by decide⟩
  decide

/-- Claim C7 (amended): a LEB128 group whose final byte is `0x7F` decodes
signed to `-1` when every earlier byte is `0xFF` (all payload bits set);
otherwise the value is more negative, as the counterexample shows. -/
theorem C7_last_7F_decodes_minus_one (bs : List Nat)
    (hlast : bs.getLast? = some 0x7F)
    (hff : ∀ b ∈ bs.dropLast, b = 0xFF) :
    decode_leb128s bs = -1 := by
  have hu := decode_leb128u_allFF bs hlast hff
  have hld := getLastD_of_getLast? hlast
  have hcond : bs.getLastD 0 &&& 0x40 ≠ 0 := by
    rw [hld]
    decide
  unfold decode_leb128s
  rw [if_pos hcond, hu]
  have hsh : ((1 <<< (bs.length * 7) : Nat) : Int) =
      ((2 ^ (7 * bs.length) : Nat) : Int) := by
    rw [Nat.shiftLeft_eq, one_mul, Nat.mul_comm]
  rw [hsh]
  have h1 : (1 : Nat) ≤ 2 ^ (7 * bs.length) := Nat.one_le_two_pow
  generalize 2 ^ (7 * bs.length) = x at h1 ⊢
  omega

/-- Witness for C7: the amended theorem applied to the group `FF 7F`. -/
theorem C7_last_7F_decodes_minus_one_witness :
    decode_leb128s [0xFF, 0x7F] = -1 :=
  C7_last_7F_decodes_minus_one [0xFF, 0x7F] (by decide) (by decide)

/-- Claim C8: on the six-byte input `00 61 73 6D 01 00` the magic check
passes (the first four bytes equal `FILE_MAGIC`) and the 4-byte
little-endian version read then fails with the truncation error. -/
theorem C8_truncated_after_magic :
    readHeader ⟨[0x00, 0x61, 0x73, 0x6D, 0x01, 0x00], 0, 0⟩ = .error .truncated ∧
    (ReadData.read ⟨[0x00, 0x61, 0x73, 0x6D, 0x01, 0x00], 0, 0⟩ 4).1.data =
      FILE_MAGIC :=
  ⟨rfl, rfl⟩

/-- Claim C9: when an expression cursor has no bytes left, the walker
returns normally with the cursor unchanged — a missing `end` terminator
is not reported. -/
theorem C9_exhausted_expression_ok (s : ReadData) (h : s.remain = 0) :
    expression s = .ok s := by
  unfold expression
  rw [expressionAux]
  rw [dif_pos h]

/-- Witness for C9: an exhausted cursor (one byte, read position one). -/
theorem C9_exhausted_expression_ok_witness :
    expression ⟨[0x0B], 0, 1⟩ = .ok ⟨[0x0B], 0, 1⟩ :=
  C9_exhausted_expression_ok ⟨[0x0B], 0, 1⟩ rfl

/-- Claim C10: every successfully decoded instruction preserves the
buffer and base offset and advances the read position by at least one
byte, so the remaining-byte count strictly decreases whenever it was
positive — the measure by which the recursive expression walker
terminates. -/
theorem C10_instruction_advances (s : ReadData) (a : String) (t : ReadData)
    (h : instruction s = .ok (a, t)) :
    t.data = s.data ∧ t.fpos = s.fpos ∧ s.rpos + 1 ≤ t.rpos ∧
    (0 < s.remain → t.remain < s.remain) := by
  obtain ⟨h1, h2, h3⟩ := instruction_advance h
  exact ⟨h1, h2, h3, fun h0 => instruction_remain_lt h (by omega)⟩

/-- Witness for C10: the one-byte instruction `nop`. -/
theorem C10_instruction_advances_witness :
    instruction ⟨[0x01], 0, 0⟩ = .ok ("nop", ⟨[0x01], 0, 1⟩) ∧
    (0 : Nat) + 1 ≤ (⟨[0x01], 0, 1⟩ : ReadData).rpos ∧
    (⟨[0x01], 0, 1⟩ : ReadData).remain < (⟨[0x01], 0, 0⟩ : ReadData).remain := by
  refine ⟨rfl, ?_, ?_⟩
  · exact (C10_instruction_advances ⟨[0x01], 0, 0⟩ "nop" ⟨[0x01], 0, 1⟩ rfl).2.2.1
  · exact (C10_instruction_advances ⟨[0x01], 0, 0⟩ "nop" ⟨[0x01], 0, 1⟩ rfl).2.2.2
      (by decide)
